import Mathlib

/-!
# unsplash-mcp-server (Go): shallow embedding of `main.go`

The embedding follows `main.go` function by function.

* Tool arguments (`request.Params.Arguments`, a `map[string]interface{}` filled by the JSON
  decoder) are an association list of `Val`; a Go type assertion `x.(string)` is a match on
  the constructor.
* A Go `error` is its message (`err.Error()`); `fmt.Errorf("...: %w", err)` prepends a prefix.
* A handler result `(*mcp.CallToolResult, error)` is `Except String String`: the error message
  or the text of the result.
* What the Go standard library and the platform decide (the size of `int`, the result of an
  out-of-range float conversion, `http.NewRequestWithContext`, `json.Unmarshal`) is a field of
  `Runtime`; the HTTP round trip is a field of `UnsplashClient`.
-/

namespace Unsplash

/-! ## Dynamic values and the argument map -/

/-- A value of type `interface{}` as produced by `encoding/json`: a string, a `float64`
(always finite when it comes from JSON, hence a rational), a bool, `nil`, or a composite. -/
inductive Val where
  | str (s : String)
  | num (q : ℚ)
  | bool (b : Bool)
  | null
  | array
  | object
  deriving DecidableEq

/-- The map `request.Params.Arguments`. -/
abbrev Args := List (String × Val)

/-- Type assertion `request.Params.Arguments[key].(string)`. -/
def Args.asString (args : Args) (key : String) : Option String :=
  match args.lookup key with
  | some (Val.str s) => some s
  | _ => none

/-- Type assertion `request.Params.Arguments[key].(float64)`. -/
def Args.asFloat (args : Args) (key : String) : Option ℚ :=
  match args.lookup key with
  | some (Val.num q) => some q
  | _ => none

/-- Type assertion `request.Params.Arguments[key].(bool)`. -/
def Args.asBool (args : Args) (key : String) : Option Bool :=
  match args.lookup key with
  | some (Val.bool b) => some b
  | _ => none

/-! ## The standard library functions the handlers call -/

/-- The two errors of package `strconv`. -/
inductive NumError where
  | errSyntax
  | errRange
  deriving DecidableEq

/-- The value of a byte `'0'..'9'`, if it is one. -/
def digitVal (c : Char) : Option Nat :=
  if 48 ≤ c.toNat ∧ c.toNat ≤ 57 then some (c.toNat - 48) else none

/-- The value of a non-empty run of decimal digits. -/
def parseDigits (cs : List Char) : Option Nat :=
  match cs with
  | [] => none
  | _ => cs.foldlM (fun n c => (digitVal c).map (fun d => n * 10 + d)) 0

/-- Whether `v` fits a signed integer of `intSize` bits. -/
def fitsInt (intSize : Nat) (v : Int) : Prop :=
  -(2 : Int) ^ (intSize - 1) ≤ v ∧ v < (2 : Int) ^ (intSize - 1)

instance (intSize : Nat) (v : Int) : Decidable (fitsInt intSize v) := by
  unfold fitsInt; infer_instance

/-- The optional sign at the start of a number: whether it is `-`, and what follows it. -/
def splitSign : List Char → Bool × List Char
  | '-' :: r => (true, r)
  | '+' :: r => (false, r)
  | cs => (false, cs)

/-- Go `strconv.Atoi`: an optional sign, then decimal digits; the value must fit `int`. -/
def Atoi (intSize : Nat) (s : String) : Except NumError Int :=
  let (neg, ds) := splitSign s.toList
  match parseDigits ds with
  | none => .error .errSyntax
  | some n =>
    let v : Int := if neg then -(n : Int) else (n : Int)
    if fitsInt intSize v then .ok v else .error .errRange

/-- Go `strconv.Itoa`. -/
def Itoa (i : Int) : String := toString i

/-- Go `strconv.ParseBool`. -/
def ParseBool (s : String) : Except NumError Bool :=
  if s ∈ ["1", "t", "T", "TRUE", "true", "True"] then .ok true
  else if s ∈ ["0", "f", "F", "FALSE", "false", "False"] then .ok false
  else .error .errSyntax

/-- Go `strconv.FormatBool`. -/
def FormatBool (b : Bool) : String := if b then "true" else "false"

/-- Go `url.Values`, used here only through `Set`: each key holds one value. -/
abbrev Values := List (String × String)

/-- Go `url.Values.Set`: the key now holds exactly `value` (the entry of the key is replaced,
or a new entry is added). -/
def Values.Set : Values → String → String → Values
  | [], key, value => [(key, value)]
  | e :: v, key, value =>
    if e.1 = key then (key, value) :: v else e :: Values.Set v key value

/-- Go `url.Values.Get` with the presence bit: the value held by `key`, if any. -/
def Values.Get (v : Values) (key : String) : Option String := v.lookup key

/-- Go `url.Values.Has`. -/
def Values.Has (v : Values) (key : String) : Bool := (v.lookup key).isSome

/-- Whether `url.QueryEscape` leaves the byte as it is: letters, digits, `-`, `_`, `.`, `~`. -/
def unreservedByte (b : UInt8) : Bool :=
  (97 ≤ b.toNat && b.toNat ≤ 122) || (65 ≤ b.toNat && b.toNat ≤ 90) ||
  (48 ≤ b.toNat && b.toNat ≤ 57) || b.toNat == 45 || b.toNat == 95 || b.toNat == 46 ||
  b.toNat == 126

/-- The upper-case hexadecimal digit of a value below 16. -/
def upperHex (n : Nat) : Char := "0123456789ABCDEF".toList.getD n '0'

/-- One byte under `url.QueryEscape`: kept, a space turned into `+`, or `%XX`. -/
def escapeByte (b : UInt8) : List Char :=
  if unreservedByte b then [Char.ofNat b.toNat]
  else if b.toNat == 32 then ['+']
  else ['%', upperHex (b.toNat / 16), upperHex (b.toNat % 16)]

/-- Go `url.QueryEscape`, byte by byte over the UTF-8 encoding. -/
def QueryEscape (s : String) : String :=
  String.mk ((s.toList.map String.utf8EncodeChar).flatten.map escapeByte).flatten

/-- The order in which Go sorts strings (byte-wise; on UTF-8 text this is the order of the
code points, character by character): whether `a` comes before `b` or equals it. -/
def strLe : List Char → List Char → Bool
  | [], _ => true
  | _ :: _, [] => false
  | a :: as, b :: bs => a.toNat < b.toNat || (a.toNat == b.toNat && strLe as bs)

/-- Go `url.Values.Encode`: `key=value` pairs sorted by key and joined by `&`. -/
def Values.Encode (v : Values) : String :=
  "&".intercalate
    ((v.insertionSort (fun a b => strLe a.1.toList b.1.toList)).map
      (fun e => QueryEscape e.1 ++ "=" ++ QueryEscape e.2))

/-! ## Unsplash structs -/

structure Location where
  Name : String
  City : String
  Country : String
  deriving DecidableEq

structure Exif where
  Make : String
  Model : String
  ExposureTime : String
  Aperture : String
  FocalLength : String
  ISO : Int
  deriving DecidableEq

structure User where
  Name : String
  Username : String
  PortfolioURL : String
  deriving DecidableEq

structure Tag where
  Title : String
  deriving DecidableEq

/-- The struct `UnsplashPhoto`. `URLs` is the Go map `map[string]string`, held as its entries
in the order in which a `range` over the map yields them; a well-formed map has no key twice.
Pointer fields are options. -/
structure UnsplashPhoto where
  ID : String
  Description : String
  AltDescription : String
  URLs : List (String × String)
  Width : Int
  Height : Int
  Likes : Int
  Downloads : Option Int
  Location : Option Location
  Exif : Option Exif
  User : Option User
  Tags : List Tag
  deriving DecidableEq

structure SearchResponse where
  Results : List UnsplashPhoto
  Total : Int
  TotalPages : Int
  deriving DecidableEq

structure SearchPhotosInput where
  Query : String
  Page : Int
  PerPage : Int
  OrderBy : String
  Color : String
  Orientation : String
  deriving DecidableEq

/-! ## Runtime and API client -/

/-- What the platform and the libraries outside this file decide. -/
structure Runtime where
  /-- Size of `int` in bits (32 or 64). -/
  intSize : Nat
  /-- Result of `int(f)` for a float whose truncation does not fit `int`
  (implementation-dependent in Go). -/
  floatOverflow : ℚ → Int
  /-- The error of `http.NewRequestWithContext(ctx, method, url, nil)`, if it fails. -/
  newRequestErr : String → String → Option String
  /-- Result of `json.Unmarshal(body, &photo)` for one `UnsplashPhoto`. -/
  unmarshalPhoto : String → Except String UnsplashPhoto
  /-- Result of `json.Unmarshal(body, &photos)` for `[]UnsplashPhoto`. -/
  unmarshalPhotos : String → Except String (List UnsplashPhoto)
  /-- Result of `json.Unmarshal(body, &searchResponse)`. -/
  unmarshalSearch : String → Except String SearchResponse

/-- The conversion `int(f)` of a `float64`: the fraction is discarded (truncation toward
zero); a value that does not fit is implementation-dependent. -/
def Runtime.floatToInt (rt : Runtime) (f : ℚ) : Int :=
  let t := f.num.tdiv (f.den : Int)
  if fitsInt rt.intSize t then t else rt.floatOverflow f

/-- An outgoing request: method, URL and the headers set on it. -/
structure HttpRequest where
  method : String
  url : String
  header : List (String × String)
  deriving DecidableEq

/-- What `c.client.Do(req)` followed by `io.ReadAll(resp.Body)` yields: the error of `Do`,
the error of `ReadAll`, or a status code with the whole body (the body bytes held as text). -/
inductive HttpOutcome where
  | doErr (msg : String)
  | readErr (statusCode : Int) (msg : String)
  | response (statusCode : Int) (body : String)
  deriving DecidableEq

def version : String := "0.2.0"

def appName : String := "unsplash-mcp-server"

def unsplashAPIBaseURL : String := "https://api.unsplash.com"

structure UnsplashClient where
  accessKey : String
  client : HttpRequest → HttpOutcome

/-- Constructor `NewUnsplashClient`. -/
def NewUnsplashClient (accessKey : String) (http : HttpRequest → HttpOutcome) :
    Except String UnsplashClient :=
  if accessKey = "" then .error "missing UNSPLASH_ACCESS_KEY environment variable"
  else .ok { accessKey := accessKey, client := http }

/-- The URL built at the start of `makeAPIRequest`: base URL and endpoint, then `?` and the
encoded parameters unless `params` is nil (`none`). -/
def requestURL (endpoint : String) (params : Option Values) : String :=
  let fullURL := unsplashAPIBaseURL ++ endpoint
  match params with
  | some ps => fullURL ++ "?" ++ ps.Encode
  | none => fullURL

/-- The request sent by `makeAPIRequest`, with its three headers. -/
def UnsplashClient.newRequest (c : UnsplashClient) (method fullURL : String) : HttpRequest :=
  { method := method, url := fullURL,
    header := [("Accept-Version", "v1"),
               ("Authorization", "Client-ID " ++ c.accessKey),
               ("User-Agent", appName ++ "/" ++ version)] }

/-- Method `UnsplashClient.makeAPIRequest`: the lines written with `log.Printf`, and the
returned `([]byte, error)`. `params` is `none` for a nil `url.Values`. -/
def UnsplashClient.makeAPIRequest (rt : Runtime) (c : UnsplashClient)
    (method endpoint : String) (params : Option Values) : List String × Except String String :=
  let fullURL := requestURL endpoint params
  match rt.newRequestErr method fullURL with
  | some err => ([], .error ("failed to create request: " ++ err))
  | none =>
    let req := c.newRequest method fullURL
    let log := ["Making API request to: " ++ fullURL]
    match c.client req with
    | .doErr err => (log, .error ("failed to perform request: " ++ err))
    | .readErr _ err => (log, .error ("failed to read response body: " ++ err))
    | .response statusCode body =>
      if statusCode < 200 ∨ statusCode ≥ 300 then
        (log ++ ["API Error: Status " ++ toString statusCode ++ ", Body: " ++ body],
          .error ("unsplash API error: status code " ++ toString statusCode))
      else (log, .ok body)

/-! ## Formatting helpers -/

def urlsToShow : List String := ["small", "regular", "full", "raw"]

/-- One line of the URL listing of the summary. -/
def summaryUrlLine (size url : String) : String := "    " ++ size ++ ": " ++ url ++ "\n"

/-- Function `formatPhotoSummary`. The builder `sb` is the text written so far; `shown` is the map
`shown` (the latest write for a key comes first). -/
def formatPhotoSummary (photo : UnsplashPhoto) : String :=
  let sb := ""
  let sb := sb ++ ("- ID: " ++ photo.ID ++ "\n")
  let desc := photo.Description
  let desc := if desc = "" then photo.AltDescription else desc
  let sb := if desc ≠ "" then sb ++ ("  Description: " ++ desc ++ "\n") else sb
  let sb := sb ++ ("  Size: " ++ toString photo.Width ++ "x" ++ toString photo.Height ++ "\n")
  let sb := sb ++ "  URLs:\n"
  let st : String × List (String × Bool) :=
    urlsToShow.foldl
      (fun st size =>
        match photo.URLs.lookup size with
        | some url => (st.1 ++ summaryUrlLine size url, (size, true) :: st.2)
        | none => st)
      (sb, [])
  let sb := st.1
  let shown := st.2
  let sb :=
    photo.URLs.foldl
      (fun sb e =>
        if !((shown.lookup e.1).getD false) then sb ++ summaryUrlLine e.1 e.2 else sb)
      sb
  sb

/-- Function `formatPhotoDetails`. -/
def formatPhotoDetails (photo : UnsplashPhoto) : String :=
  let sb := ""
  let sb := sb ++ "Photo Details:\n\n"
  let sb := sb ++ ("- ID: " ++ photo.ID ++ "\n")
  let sb :=
    if photo.Description ≠ "" then sb ++ ("- Description: " ++ photo.Description ++ "\n")
    else sb
  let sb :=
    if photo.AltDescription ≠ "" then
      sb ++ ("- Alt Description: " ++ photo.AltDescription ++ "\n")
    else sb
  let sb := sb ++ ("- Size: " ++ toString photo.Width ++ "x" ++ toString photo.Height ++ "\n")
  let sb := sb ++ ("- Likes: " ++ toString photo.Likes ++ "\n")
  let sb :=
    match photo.Downloads with
    | some d => sb ++ ("- Downloads: " ++ toString d ++ "\n")
    | none => sb
  let sb :=
    match photo.User with
    | some user =>
      let sb := sb ++ "\nPhotographer:\n"
      let sb := sb ++ ("- Name: " ++ user.Name ++ "\n")
      let sb := sb ++ ("- Username: @" ++ user.Username ++ "\n")
      if user.PortfolioURL ≠ "" then sb ++ ("- Portfolio: " ++ user.PortfolioURL ++ "\n")
      else sb
    | none => sb
  let sb :=
    match photo.Location with
    | some loc =>
      if loc.Name ≠ "" ∨ loc.City ≠ "" ∨ loc.Country ≠ "" then
        let sb := sb ++ "\nLocation:\n"
        let sb := if loc.Name ≠ "" then sb ++ ("- Name: " ++ loc.Name ++ "\n") else sb
        let sb := if loc.City ≠ "" then sb ++ ("- City: " ++ loc.City ++ "\n") else sb
        if loc.Country ≠ "" then sb ++ ("- Country: " ++ loc.Country ++ "\n") else sb
      else sb
    | none => sb
  let sb :=
    match photo.Exif with
    | some exif =>
      if exif.Make ≠ "" ∨ exif.Model ≠ "" ∨ exif.ExposureTime ≠ "" ∨ exif.Aperture ≠ "" ∨
          exif.FocalLength ≠ "" ∨ exif.ISO > 0 then
        let sb := sb ++ "\nCamera Info:\n"
        let sb := if exif.Make ≠ "" then sb ++ ("- Camera Make: " ++ exif.Make ++ "\n") else sb
        let sb :=
          if exif.Model ≠ "" then sb ++ ("- Camera Model: " ++ exif.Model ++ "\n") else sb
        let sb :=
          if exif.ExposureTime ≠ "" then
            sb ++ ("- Exposure Time: " ++ exif.ExposureTime ++ "\n")
          else sb
        let sb :=
          if exif.Aperture ≠ "" then sb ++ ("- Aperture: " ++ exif.Aperture ++ "\n") else sb
        let sb :=
          if exif.FocalLength ≠ "" then
            sb ++ ("- Focal Length: " ++ exif.FocalLength ++ "\n")
          else sb
        if exif.ISO > 0 then sb ++ ("- ISO: " ++ toString exif.ISO ++ "\n") else sb
      else sb
    | none => sb
  let sb := sb ++ "\nURLs:\n"
  let sb := photo.URLs.foldl (fun sb e => sb ++ ("- " ++ e.1 ++ ": " ++ e.2 ++ "\n")) sb
  let sb :=
    if photo.Tags.length > 0 then
      let sb := sb ++ "\nTags:\n"
      photo.Tags.foldl (fun sb tag => sb ++ ("- " ++ tag.Title ++ "\n")) sb
    else sb
  sb

/-! ## Tool handlers -/

/-- The two statements `if n > 30 { n = 30 }` and `if n < 1 { n = 1 }` that follow every
assignment of `per_page` and `count` ("Enforce max", "Enforce min"). -/
def enforceRange (n : Int) : Int :=
  let n := if n > 30 then 30 else n
  let n := if n < 1 then 1 else n
  n

/-- The state of a handler while it reads its arguments: the input struct and `params`. -/
abbrev SearchState := SearchPhotosInput × Values

/-- The `page` block of the `search_photos` handler (`main.go` lines 180-188). -/
def searchPage (rt : Runtime) (args : Args) (st : SearchState) : SearchState :=
  let input := st.1
  let input :=
    match args.asString "page" with
    | some p =>
      match Atoi rt.intSize p with
      | .ok pageNum => { input with Page := pageNum }
      | .error _ => input
    | none =>
      match args.asFloat "page" with
      | some p => { input with Page := rt.floatToInt p }
      | none => input
  (input, st.2.Set "page" (Itoa input.Page))

/-- The `per_page` block of the `search_photos` handler (`main.go` lines 190-210). -/
def searchPerPage (rt : Runtime) (args : Args) (st : SearchState) : SearchState :=
  let input := st.1
  let input :=
    match args.asString "per_page" with
    | some pp =>
      match Atoi rt.intSize pp with
      | .ok perPage => { input with PerPage := enforceRange perPage }
      | .error _ => input
    | none =>
      match args.asFloat "per_page" with
      | some pp => { input with PerPage := enforceRange (rt.floatToInt pp) }
      | none => input
  (input, st.2.Set "per_page" (Itoa input.PerPage))

/-- The `order_by` block of the `search_photos` handler (`main.go` lines 212-217). -/
def searchOrderBy (args : Args) (st : SearchState) : SearchState :=
  match args.asString "order_by" with
  | some ob => ({ st.1 with OrderBy := ob }, st.2.Set "order_by" ob)
  | none => (st.1, st.2.Set "order_by" st.1.OrderBy)

/-- The `color` block of the `search_photos` handler (`main.go` lines 219-222). -/
def searchColor (args : Args) (st : SearchState) : SearchState :=
  match args.asString "color" with
  | some c => if c ≠ "" then ({ st.1 with Color := c }, st.2.Set "color" c) else st
  | none => st

/-- The `orientation` block of the `search_photos` handler (`main.go` lines 223-226). -/
def searchOrientation (args : Args) (st : SearchState) : SearchState :=
  match args.asString "orientation" with
  | some o => if o ≠ "" then ({ st.1 with Orientation := o }, st.2.Set "orientation" o) else st
  | none => st

/-- The first part of the `search_photos` handler, up to the call of the client
(`main.go` lines 170-226): the error for a missing `query`, or the normalised input and the
query parameters. -/
def searchPhotosRequest (rt : Runtime) (args : Args) : Except String SearchState :=
  let params : Values := []
  let input : SearchPhotosInput :=
    { Query := "", Page := 1, PerPage := 10, OrderBy := "relevant", Color := "",
      Orientation := "" }
  match args.asString "query" with
  | none => .error "missing required parameter: query"
  | some q =>
    let st : SearchState := ({ input with Query := q }, params.Set "query" q)
    let st := searchPage rt args st
    let st := searchPerPage rt args st
    let st := searchOrderBy args st
    let st := searchColor args st
    let st := searchOrientation args st
    .ok st

/-- The text report of the `search_photos` handler (`main.go` lines 238-245). -/
def searchPhotosReport (input : SearchPhotosInput) (searchResponse : SearchResponse) : String :=
  let resultText := ""
  let resultText :=
    resultText ++ ("Found " ++ toString searchResponse.Results.length ++ " photos (Page " ++
      toString input.Page ++ "/" ++ toString searchResponse.TotalPages ++ "):\n\n")
  searchResponse.Results.foldl
    (fun resultText photo => resultText ++ formatPhotoSummary photo ++ "\n")
    resultText

/-- The handler returned by `createSearchPhotosTool`. -/
def createSearchPhotosTool (rt : Runtime) (client : UnsplashClient) (args : Args) :
    Except String String :=
  match searchPhotosRequest rt args with
  | .error err => .error err
  | .ok (input, params) =>
    match (client.makeAPIRequest rt "GET" "/search/photos" (some params)).2 with
    | .error err => .error ("failed to search photos: " ++ err)
    | .ok body =>
      match rt.unmarshalSearch body with
      | .error err => .error ("failed to decode search response: " ++ err)
      | .ok searchResponse => .ok (searchPhotosReport input searchResponse)

/-- The handler returned by `createGetPhotoTool`. -/
def createGetPhotoTool (rt : Runtime) (client : UnsplashClient) (args : Args) :
    Except String String :=
  match args.asString "photoId" with
  | none => .error "missing or empty required parameter: photoId"
  | some photoID =>
    if photoID = "" then .error "missing or empty required parameter: photoId"
    else
      let endpoint := "/photos/" ++ photoID
      match (client.makeAPIRequest rt "GET" endpoint none).2 with
      | .error err => .error ("failed to get photo " ++ photoID ++ ": " ++ err)
      | .ok body =>
        match rt.unmarshalPhoto body with
        | .error err => .error ("failed to decode photo details: " ++ err)
        | .ok photo => .ok (formatPhotoDetails photo)

/-- A pass-through string argument of `random_photo` (`main.go` lines 322-339, one `if` per
key): set when the argument is a non-empty string. -/
def setIfNonEmpty (args : Args) (params : Values) (key : String) : Values :=
  match args.asString key with
  | some v => if v ≠ "" then params.Set key v else params
  | none => params

/-- The `count` block of the `random_photo` handler (`main.go` lines 296-319): the variable
`count` and `params` after it. -/
def randomCount (rt : Runtime) (args : Args) (params : Values) : Int × Values :=
  let count : Int := 1
  match args.asString "count" with
  | some c =>
    match Atoi rt.intSize c with
    | .ok countNum =>
      let count := enforceRange countNum
      (count, params.Set "count" (Itoa count))
    | .error _ => (count, params)
  | none =>
    match args.asFloat "count" with
    | some c =>
      let count := enforceRange (rt.floatToInt c)
      (count, params.Set "count" (Itoa count))
    | none => (count, params)

/-- The `featured` block of the `random_photo` handler (`main.go` lines 340-347). -/
def randomFeatured (args : Args) (params : Values) : Values :=
  match (args.asString "featured").filter (fun v => v ≠ "") with
  | some v =>
    match ParseBool v with
    | .ok featured => if featured then params.Set "featured" "true" else params
    | .error _ => params
  | none =>
    match args.asBool "featured" with
    | some v => params.Set "featured" (FormatBool v)
    | none => params

/-- The first part of the `random_photo` handler, up to the call of the client
(`main.go` lines 295-347): the variable `count` and the query parameters. -/
def randomPhotoRequest (rt : Runtime) (args : Args) : Int × Values :=
  let params : Values := []
  let (count, params) := randomCount rt args params
  let params := setIfNonEmpty args params "collections"
  let params := setIfNonEmpty args params "topics"
  let params := setIfNonEmpty args params "username"
  let params := setIfNonEmpty args params "query"
  let params := setIfNonEmpty args params "orientation"
  let params := setIfNonEmpty args params "content_filter"
  let params := randomFeatured args params
  (count, params)

/-- The text report of the `random_photo` handler (`main.go` lines 368-376). -/
def randomPhotoReport (photos : List UnsplashPhoto) : String :=
  let resultText := ""
  let resultText := resultText ++ ("Random Photos (" ++ toString photos.length ++ "):\n\n")
  (photos.foldl
    (fun (st : String × Nat) photo =>
      (st.1 ++ ("Photo " ++ toString (st.2 + 1) ++ ":\n") ++ formatPhotoSummary photo ++ "\n",
        st.2 + 1))
    (resultText, 0)).1

/-- The handler returned by `createRandomPhotoTool`. -/
def createRandomPhotoTool (rt : Runtime) (client : UnsplashClient) (args : Args) :
    Except String String :=
  let (count, params) := randomPhotoRequest rt args
  match (client.makeAPIRequest rt "GET" "/photos/random" (some params)).2 with
  | .error err => .error ("failed to get random photo(s): " ++ err)
  | .ok body =>
    let decoded : Except String (List UnsplashPhoto) :=
      if count = 1 then
        match rt.unmarshalPhoto body with
        | .error err => .error ("failed to decode single random photo: " ++ err)
        | .ok singlePhoto => .ok ([] ++ [singlePhoto])
      else
        match rt.unmarshalPhotos body with
        | .error err => .error ("failed to decode multiple random photos: " ++ err)
        | .ok photos => .ok photos
    match decoded with
    | .error err => .error err
    | .ok photos => .ok (randomPhotoReport photos)

/-! ## Sample values -/

/-- A photo with every field empty or zero. -/
def emptyPhoto : UnsplashPhoto :=
  { ID := "", Description := "", AltDescription := "", URLs := [], Width := 0, Height := 0,
    Likes := 0, Downloads := none, Location := none, Exif := none, User := none, Tags := [] }

/-- A sample photo. -/
def samplePhoto : UnsplashPhoto :=
  { emptyPhoto with
    ID := "abc", Width := 4, Height := 3,
    URLs := [("full", "f"), ("small", "s"), ("thumb", "t")] }

/-- A sample 64-bit runtime: out-of-range float conversions give the smallest `int`, every
request can be created, and the JSON decoders know three sample bodies. -/
def sampleRuntime : Runtime :=
  { intSize := 64
    floatOverflow := fun _ => -9223372036854775808
    newRequestErr := fun _ _ => none
    unmarshalPhoto := fun body =>
      if body = "\x7b\"id\":\"abc\"\x7d" then .ok samplePhoto
      else .error "json: cannot unmarshal into Go value of type main.UnsplashPhoto"
    unmarshalPhotos := fun body =>
      if body = "[\x7b\"id\":\"abc\"\x7d]" then .ok [samplePhoto]
      else .error "json: cannot unmarshal into Go value of type []main.UnsplashPhoto"
    unmarshalSearch := fun body =>
      if body = "\x7b\"results\":[\x7b\"id\":\"abc\"\x7d],\"total\":1,\"total_pages\":5\x7d" then
        .ok { Results := [samplePhoto], Total := 1, TotalPages := 5 }
      else .error "json: cannot unmarshal into Go value of type main.SearchResponse" }

/-- A client whose every request ends with the given outcome. -/
def constClient (outcome : HttpOutcome) : UnsplashClient :=
  { accessKey := "key", client := fun _ => outcome }

/-- A client that knows one URL: it answers 200 with the sample photo body for
`/photos/random` and 404 for every other URL. -/
def randomOnlyClient : UnsplashClient :=
  { accessKey := "key"
    client := fun req =>
      if req.url = "https://api.unsplash.com/photos/random" then
        .response 200 "\x7b\"id\":\"abc\"\x7d"
      else .response 404 "\x7b\"errors\":[\"not found\"]\x7d" }

/-! ## The text of the formatters, section by section

These definitions follow the wording of the specification (one definition per section of the
output); the theorems below compare them with `formatPhotoSummary` and `formatPhotoDetails`. -/

/-- A line `label value` followed by a newline, written only for a non-empty value. -/
def optionalLine (label value : String) : String :=
  if value ≠ "" then label ++ value ++ "\n" else ""

/-- The Photographer section as `formatPhotoDetails` writes it: present whenever `User` is. -/
def photographerSection : Option User → String
  | none => ""
  | some user =>
    "\nPhotographer:\n" ++ ("- Name: " ++ user.Name ++ "\n") ++
      ("- Username: @" ++ user.Username ++ "\n") ++
      optionalLine "- Portfolio: " user.PortfolioURL

/-- The Location section: present when one of name, city, country is non-empty, one line
for each non-empty field. -/
def locationSection : Option Location → String
  | none => ""
  | some loc =>
    if loc.Name ≠ "" ∨ loc.City ≠ "" ∨ loc.Country ≠ "" then
      "\nLocation:\n" ++ optionalLine "- Name: " loc.Name ++ optionalLine "- City: " loc.City ++
        optionalLine "- Country: " loc.Country
    else ""

/-- Whether the Camera Info section is shown: one of the text fields is non-empty or the
ISO is positive. -/
def hasCameraInfo (exif : Exif) : Prop :=
  exif.Make ≠ "" ∨ exif.Model ≠ "" ∨ exif.ExposureTime ≠ "" ∨ exif.Aperture ≠ "" ∨
    exif.FocalLength ≠ "" ∨ exif.ISO > 0

instance (exif : Exif) : Decidable (hasCameraInfo exif) := by
  unfold hasCameraInfo; infer_instance

/-- The ISO line, written only for a positive ISO. -/
def isoLine (iso : Int) : String :=
  if iso > 0 then "- ISO: " ++ toString iso ++ "\n" else ""

/-- The Camera Info section: the header, one line for each non-empty text field, and the
ISO line. -/
def cameraInfoSection : Option Exif → String
  | none => ""
  | some exif =>
    if hasCameraInfo exif then
      "\nCamera Info:\n" ++ optionalLine "- Camera Make: " exif.Make ++
        optionalLine "- Camera Model: " exif.Model ++
        optionalLine "- Exposure Time: " exif.ExposureTime ++
        optionalLine "- Aperture: " exif.Aperture ++
        optionalLine "- Focal Length: " exif.FocalLength ++ isoLine exif.ISO
    else ""

/-- The detail view up to the Photographer section. -/
def detailsHead (photo : UnsplashPhoto) : String :=
  "Photo Details:\n\n" ++ ("- ID: " ++ photo.ID ++ "\n") ++
    optionalLine "- Description: " photo.Description ++
    optionalLine "- Alt Description: " photo.AltDescription ++
    ("- Size: " ++ toString photo.Width ++ "x" ++ toString photo.Height ++ "\n") ++
    ("- Likes: " ++ toString photo.Likes ++ "\n") ++
    (match photo.Downloads with
      | some d => "- Downloads: " ++ toString d ++ "\n"
      | none => "")

/-- The detail view after the Camera Info section: the URL listing and the tags. -/
def detailsTail (photo : UnsplashPhoto) : String :=
  "\nURLs:\n" ++ String.join (photo.URLs.map (fun e => "- " ++ e.1 ++ ": " ++ e.2 ++ "\n")) ++
    (if photo.Tags.length > 0 then
      "\nTags:\n" ++ String.join (photo.Tags.map (fun tag => "- " ++ tag.Title ++ "\n"))
    else "")

/-- The summary up to and including the line `URLs:`. -/
def summaryHead (photo : UnsplashPhoto) : String :=
  "- ID: " ++ photo.ID ++ "\n" ++
    optionalLine "  Description: "
      (if photo.Description = "" then photo.AltDescription else photo.Description) ++
    ("  Size: " ++ toString photo.Width ++ "x" ++ toString photo.Height ++ "\n") ++ "  URLs:\n"

/-- The entries of the preferred sizes that the map holds, in the order of `urlsToShow`. -/
def preferredEntries (urls : List (String × String)) : List (String × String) :=
  urlsToShow.filterMap (fun size => (urls.lookup size).map (fun url => (size, url)))

/-- The entries of the map whose key is not a preferred size, in the map's order. -/
def remainingEntries (urls : List (String × String)) : List (String × String) :=
  urls.filter (fun e => !(urlsToShow.contains e.1))

/-! ## The normalised arguments of `search_photos`, as the specification describes them

One definition per argument (default, accepted encodings); `searchPhotosRequest_eq` below
compares them with the handler. -/

/-- The page: the integer read from a string that `strconv.Atoi` accepts, or the truncated
number, and 1 otherwise. -/
def pageValue (rt : Runtime) (args : Args) : Int :=
  match args.lookup "page" with
  | some (Val.str p) =>
    match Atoi rt.intSize p with
    | .ok pageNum => pageNum
    | .error _ => 1
  | some (Val.num p) => rt.floatToInt p
  | _ => 1

/-- The page size: as `pageValue`, clamped to 1..30 when given, and 10 otherwise. -/
def perPageValue (rt : Runtime) (args : Args) : Int :=
  match args.lookup "per_page" with
  | some (Val.str pp) =>
    match Atoi rt.intSize pp with
    | .ok perPage => min 30 (max 1 perPage)
    | .error _ => 10
  | some (Val.num pp) => min 30 (max 1 (rt.floatToInt pp))
  | _ => 10

/-- The sort order: the string argument as it is, and "relevant" otherwise. -/
def orderByValue (args : Args) : String :=
  match args.lookup "order_by" with
  | some (Val.str ob) => ob
  | _ => "relevant"

/-- An optional string argument: the string, and the empty string when it is not given. -/
def optionalValue (args : Args) (key : String) : String :=
  match args.lookup key with
  | some (Val.str v) => v
  | _ => ""

/-- The parameter of an optional argument: one entry for a non-empty value, none otherwise. -/
def optionalParam (key value : String) : Values :=
  if value ≠ "" then [(key, value)] else []

/-- The query parameters of `search_photos` for the query `q`. -/
def searchParams (rt : Runtime) (args : Args) (q : String) : Values :=
  [("query", q), ("page", Itoa (pageValue rt args)), ("per_page", Itoa (perPageValue rt args)),
    ("order_by", orderByValue args)] ++
    optionalParam "color" (optionalValue args "color") ++
    optionalParam "orientation" (optionalValue args "orientation")

/-- The block of the photo at the 0-based position `i` in the report of `random_photo`: the
1-based header, the summary and the newline that ends the block. -/
def photoBlock (i : Nat) (photo : UnsplashPhoto) : String :=
  "Photo " ++ toString (i + 1) ++ ":\n" ++ formatPhotoSummary photo ++ "\n"

deriving instance DecidableEq for Except

/-! ## Lemmas -/

theorem enforceRange_eq (n : Int) : enforceRange n = min 30 (max 1 n) := by
  unfold enforceRange
  simp only
  split_ifs <;> omega

theorem enforceRange_bounds (n : Int) : 1 ≤ enforceRange n ∧ enforceRange n ≤ 30 := by
  rw [enforceRange_eq]; omega

theorem Values.Get_Set_self (v : Values) (k x : String) : (v.Set k x).Get k = some x := by
  induction v with
  | nil => simp [Values.Set, Values.Get, List.lookup]
  | cons e v ih =>
    unfold Values.Set
    split_ifs with he
    · simp [Values.Get, List.lookup]
    · have hk : (k == e.1) = false := by simpa using fun h' => he h'.symm
      unfold Values.Get at ih ⊢
      rw [List.lookup_cons, hk]
      exact ih

theorem Values.Get_Set_ne (v : Values) (k k' x : String) (hne : k' ≠ k) :
    (v.Set k x).Get k' = v.Get k' := by
  have hk : (k' == k) = false := by simpa using hne
  induction v with
  | nil => simp [Values.Set, Values.Get, List.lookup, hk]
  | cons e v ih =>
    unfold Values.Set
    unfold Values.Get at ih ⊢
    split_ifs with he
    · rw [List.lookup_cons, hk, List.lookup_cons, he, hk]
    · rw [List.lookup_cons, List.lookup_cons, ih]

theorem join_cons (a : String) (l : List String) :
    String.join (a :: l) = a ++ String.join l := by
  apply String.ext
  simp [String.join_eq]

theorem join_append (l₁ l₂ : List String) :
    String.join (l₁ ++ l₂) = String.join l₁ ++ String.join l₂ := by
  apply String.ext
  simp [String.join_eq]

theorem foldl_append_eq {α : Type} (f : α → String) (l : List α) (sb : String) :
    l.foldl (fun sb e => sb ++ f e) sb = sb ++ String.join (l.map f) := by
  induction l generalizing sb with
  | nil => simp [String.join]
  | cons a l ih =>
    simp only [List.foldl_cons, List.map_cons]
    rw [ih, join_cons, String.append_assoc]

theorem ite_append_eq (c : Prop) [Decidable c] (sb x : String) :
    (if c then sb ++ x else sb) = sb ++ (if c then x else "") := by
  split_ifs <;> simp

theorem foldl_filter_append {α : Type} (p : α → Bool) (f : α → String) (l : List α)
    (sb : String) :
    l.foldl (fun sb e => if p e then sb ++ f e else sb) sb =
      sb ++ String.join ((l.filter p).map f) := by
  induction l generalizing sb with
  | nil => simp [String.join]
  | cons a l ih =>
    rw [List.foldl_cons, ih]
    cases hp : p a
    · simp [hp]
    · simp [hp, join_cons, String.append_assoc]

/-! ### The detail view is its sections, in order -/

set_option maxHeartbeats 4000000

theorem formatPhotoDetails_sections (photo : UnsplashPhoto) :
    formatPhotoDetails photo =
      detailsHead photo ++ photographerSection photo.User ++ locationSection photo.Location ++
        cameraInfoSection photo.Exif ++ detailsTail photo := by
  obtain ⟨id, d, ad, urls, w, h, likes, dl, loc, exif, user, tags⟩ := photo
  by_cases hT : tags.length > 0 <;>
  cases dl <;> cases user <;>
  rcases loc with _ | loc <;> rcases exif with _ | exif
  all_goals first
    | (by_cases hL : loc.Name ≠ "" ∨ loc.City ≠ "" ∨ loc.Country ≠ "" <;>
        by_cases hE : exif.Make ≠ "" ∨ exif.Model ≠ "" ∨ exif.ExposureTime ≠ "" ∨
          exif.Aperture ≠ "" ∨ exif.FocalLength ≠ "" ∨ exif.ISO > 0 <;>
        simp -zeta only [formatPhotoDetails, hT, hL, hE, if_true, if_false, ite_append_eq,
          foldl_append_eq] <;>
        simp only [detailsHead, photographerSection, locationSection, cameraInfoSection,
          detailsTail, optionalLine, hasCameraInfo, isoLine, hT, hL, hE, if_true, if_false,
          String.append_assoc, String.empty_append, String.append_empty])
    | (by_cases hL : loc.Name ≠ "" ∨ loc.City ≠ "" ∨ loc.Country ≠ "" <;>
        simp -zeta only [formatPhotoDetails, hT, hL, if_true, if_false, ite_append_eq,
          foldl_append_eq] <;>
        simp only [detailsHead, photographerSection, locationSection, cameraInfoSection,
          detailsTail, optionalLine, hasCameraInfo, isoLine, hT, hL, if_true, if_false,
          String.append_assoc, String.empty_append, String.append_empty])
    | (by_cases hE : exif.Make ≠ "" ∨ exif.Model ≠ "" ∨ exif.ExposureTime ≠ "" ∨
          exif.Aperture ≠ "" ∨ exif.FocalLength ≠ "" ∨ exif.ISO > 0 <;>
        simp -zeta only [formatPhotoDetails, hT, hE, if_true, if_false, ite_append_eq,
          foldl_append_eq] <;>
        simp only [detailsHead, photographerSection, locationSection, cameraInfoSection,
          detailsTail, optionalLine, hasCameraInfo, isoLine, hT, hE, if_true, if_false,
          String.append_assoc, String.empty_append, String.append_empty])
    | (simp -zeta only [formatPhotoDetails, hT, if_true, if_false, ite_append_eq,
          foldl_append_eq]
       simp only [detailsHead, photographerSection, locationSection, cameraInfoSection,
          detailsTail, optionalLine, hasCameraInfo, isoLine, hT, if_true, if_false,
          String.append_assoc, String.empty_append, String.append_empty])

set_option maxHeartbeats 200000

/-! ### The URL listing of the summary -/

theorem lookup_eq_some_of_nodup {urls : List (String × String)}
    (hnd : (urls.map Prod.fst).Nodup) (k v : String) :
    urls.lookup k = some v ↔ (k, v) ∈ urls := by
  induction urls with
  | nil => simp [List.lookup]
  | cons e urls ih =>
    obtain ⟨k', v'⟩ := e
    rw [List.map_cons, List.nodup_cons] at hnd
    rw [List.lookup_cons]
    by_cases hk : k = k'
    · subst hk
      have hnot : (k, v) ∉ urls := fun hmem => hnd.1 (List.mem_map.2 ⟨(k, v), hmem, rfl⟩)
      simp [hnot, eq_comm]
    · have hb : (k == k') = false := by simpa using hk
      simp [hb, hk, ih hnd.2]

theorem lookup_isSome_of_mem {urls : List (String × String)} {e : String × String}
    (he : e ∈ urls) : (urls.lookup e.1).isSome = true := by
  induction urls with
  | nil => simp at he
  | cons a urls ih =>
    rw [List.lookup_cons]
    cases hb : (e.1 == a.1)
    · have hne : e ≠ a := by
        intro h; rw [h] at hb; simp at hb
      rcases List.mem_cons.1 he with h | h
      · exact absurd h hne
      · simpa using ih h
    · rfl

theorem shown_lookup (ks : List String) (k : String) :
    ((ks.map (fun size => (size, true))).lookup k).getD false = decide (k ∈ ks) := by
  induction ks with
  | nil => simp [List.lookup]
  | cons a ks ih =>
    rw [List.map_cons, List.lookup_cons]
    by_cases h : k = a
    · subst h; simp
    · have hb : (k == a) = false := by simpa using h
      simp [hb, h, ih]

theorem summary_first_loop (urls : List (String × String)) (ks : List String) (sb : String)
    (shown : List (String × Bool)) :
    ks.foldl
        (fun (st : String × List (String × Bool)) size =>
          match urls.lookup size with
          | some url => (st.1 ++ summaryUrlLine size url, (size, true) :: st.2)
          | none => st)
        (sb, shown) =
      (sb ++ String.join
          ((ks.filterMap (fun size => (urls.lookup size).map (fun url => (size, url)))).map
            (fun e => summaryUrlLine e.1 e.2)),
        ((ks.filter (fun size => (urls.lookup size).isSome)).reverse.map
            (fun size => (size, true))) ++ shown) := by
  induction ks generalizing sb shown with
  | nil => simp [String.join]
  | cons k ks ih =>
    rw [List.foldl_cons]
    cases hk : urls.lookup k with
    | none => simp [ih, hk]
    | some url =>
      simp only [ih, hk, List.filterMap_cons, Option.map_some', List.map_cons, join_cons,
        String.append_assoc, List.filter_cons, Option.isSome_some, if_true, List.reverse_cons,
        List.map_append, List.map_nil, List.append_assoc, List.singleton_append]

theorem formatPhotoSummary_listing (photo : UnsplashPhoto) :
    formatPhotoSummary photo =
      summaryHead photo ++
        String.join
          ((preferredEntries photo.URLs ++ remainingEntries photo.URLs).map
            (fun e => summaryUrlLine e.1 e.2)) := by
  have hfilter :
      photo.URLs.filter
          (fun e =>
            !((((urlsToShow.filter (fun size => (photo.URLs.lookup size).isSome)).reverse.map
              (fun size => (size, true))) ++ []).lookup e.1).getD false) =
        remainingEntries photo.URLs := by
    unfold remainingEntries
    apply List.filter_congr
    intro e he
    rw [List.append_nil, shown_lookup]
    have := lookup_isSome_of_mem he
    simp [this]
  simp -zeta only [formatPhotoSummary, summary_first_loop, foldl_filter_append]
  simp only [hfilter, ite_append_eq, summaryHead, preferredEntries, optionalLine,
    List.map_append, join_append, String.append_assoc, String.empty_append]
  split_ifs <;> simp only [String.append_assoc, String.empty_append]

theorem mem_preferredEntries {urls : List (String × String)}
    (hnd : (urls.map Prod.fst).Nodup) (e : String × String) :
    e ∈ preferredEntries urls ↔ e ∈ urls ∧ e.1 ∈ urlsToShow := by
  obtain ⟨k, v⟩ := e
  simp only [preferredEntries, List.mem_filterMap, Option.map_eq_some', Prod.mk.injEq]
  constructor
  · rintro ⟨size, hsize, url, hl, rfl, rfl⟩
    exact ⟨(lookup_eq_some_of_nodup hnd _ _).1 hl, hsize⟩
  · rintro ⟨hmem, hk⟩
    exact ⟨k, hk, v, (lookup_eq_some_of_nodup hnd _ _).2 hmem, rfl, rfl⟩

theorem mem_remainingEntries (urls : List (String × String)) (e : String × String) :
    e ∈ remainingEntries urls ↔ e ∈ urls ∧ e.1 ∉ urlsToShow := by
  simp [remainingEntries]

theorem summary_entries_perm (urls : List (String × String))
    (hnd : (urls.map Prod.fst).Nodup) :
    (preferredEntries urls ++ remainingEntries urls).Perm urls := by
  have hurls : urls.Nodup := List.Nodup.of_map _ hnd
  have hndP : (preferredEntries urls).Nodup := by
    have hks : urlsToShow.Nodup := by decide
    unfold preferredEntries
    refine List.Nodup.filterMap ?_ hks
    intro a a' b hb hb'
    simp only [Option.mem_def, Option.map_eq_some'] at hb hb'
    obtain ⟨_, _, rfl⟩ := hb
    obtain ⟨_, _, h⟩ := hb'
    exact (congrArg Prod.fst h).symm
  have hndR : (remainingEntries urls).Nodup := hurls.filter _
  refine (List.perm_ext_iff_of_nodup ?_ hurls).2 ?_
  · refine List.nodup_append.2 ⟨hndP, hndR, ?_⟩
    intro e heP heR
    exact ((mem_remainingEntries urls e).1 heR).2 ((mem_preferredEntries hnd e).1 heP).2
  · intro e
    rw [List.mem_append, mem_preferredEntries hnd, mem_remainingEntries]
    constructor
    · rintro (h | h) <;> exact h.1
    · intro h
      by_cases hk : e.1 ∈ urlsToShow
      · exact Or.inl ⟨h, hk⟩
      · exact Or.inr ⟨h, hk⟩

/-! ### The request builders, block by block -/

theorem searchPage_perPage (rt : Runtime) (args : Args) (st : SearchState) :
    (searchPage rt args st).1.PerPage = st.1.PerPage := by
  unfold searchPage
  simp only
  split
  · split <;> rfl
  · split <;> rfl

theorem searchPerPage_get (rt : Runtime) (args : Args) (st : SearchState) :
    (searchPerPage rt args st).2.Get "per_page" =
      some (Itoa (searchPerPage rt args st).1.PerPage) := by
  unfold searchPerPage
  exact Values.Get_Set_self _ _ _

theorem searchOrderBy_perPage (args : Args) (st : SearchState) :
    (searchOrderBy args st).1.PerPage = st.1.PerPage := by
  unfold searchOrderBy
  split <;> rfl

theorem searchOrderBy_get (args : Args) (st : SearchState) (k : String) (hk : k ≠ "order_by") :
    (searchOrderBy args st).2.Get k = st.2.Get k := by
  unfold searchOrderBy
  split <;> exact Values.Get_Set_ne _ _ _ _ hk

theorem searchColor_perPage (args : Args) (st : SearchState) :
    (searchColor args st).1.PerPage = st.1.PerPage := by
  unfold searchColor
  split
  · split <;> rfl
  · rfl

theorem searchColor_get (args : Args) (st : SearchState) (k : String) (hk : k ≠ "color") :
    (searchColor args st).2.Get k = st.2.Get k := by
  unfold searchColor
  split
  · split
    · exact Values.Get_Set_ne _ _ _ _ hk
    · rfl
  · rfl

theorem searchOrientation_perPage (args : Args) (st : SearchState) :
    (searchOrientation args st).1.PerPage = st.1.PerPage := by
  unfold searchOrientation
  split
  · split <;> rfl
  · rfl

theorem searchOrientation_get (args : Args) (st : SearchState) (k : String)
    (hk : k ≠ "orientation") :
    (searchOrientation args st).2.Get k = st.2.Get k := by
  unfold searchOrientation
  split
  · split
    · exact Values.Get_Set_ne _ _ _ _ hk
    · rfl
  · rfl

theorem setIfNonEmpty_get (args : Args) (params : Values) (key k : String) (hk : k ≠ key) :
    (setIfNonEmpty args params key).Get k = params.Get k := by
  unfold setIfNonEmpty
  split
  · split
    · exact Values.Get_Set_ne _ _ _ _ hk
    · rfl
  · rfl

theorem randomFeatured_get (args : Args) (params : Values) (k : String) (hk : k ≠ "featured") :
    (randomFeatured args params).Get k = params.Get k := by
  unfold randomFeatured
  split
  · split
    · split
      · exact Values.Get_Set_ne _ _ _ _ hk
      · rfl
    · rfl
  · split
    · exact Values.Get_Set_ne _ _ _ _ hk
    · rfl

theorem floatToInt_intCast (rt : Runtime) (k : Int) (hk : fitsInt rt.intSize k) :
    rt.floatToInt (k : ℚ) = k := by
  unfold Runtime.floatToInt
  simp [hk]

theorem asString_of_lookup_num {args : Args} {key : String} {q : ℚ}
    (h : args.lookup key = some (Val.num q)) :
    args.asString key = none ∧ args.asFloat key = some q := by
  simp [Args.asString, Args.asFloat, h]

theorem asString_of_lookup_none {args : Args} {key : String}
    (h : args.lookup key = none) :
    args.asString key = none ∧ args.asFloat key = none ∧ args.asBool key = none := by
  simp [Args.asString, Args.asFloat, Args.asBool, h]

theorem searchPerPage_value (rt : Runtime) (args : Args) (st : SearchState) :
    (searchPerPage rt args st).1.PerPage =
      match args.asString "per_page" with
      | some pp =>
        match Atoi rt.intSize pp with
        | .ok perPage => enforceRange perPage
        | .error _ => st.1.PerPage
      | none =>
        match args.asFloat "per_page" with
        | some pp => enforceRange (rt.floatToInt pp)
        | none => st.1.PerPage := by
  unfold searchPerPage
  simp only
  split
  · split <;> rfl
  · split <;> rfl

theorem randomCount_value (rt : Runtime) (args : Args) (params : Values) :
    (randomCount rt args params).1 =
      match args.asString "count" with
      | some c =>
        match Atoi rt.intSize c with
        | .ok countNum => enforceRange countNum
        | .error _ => 1
      | none =>
        match args.asFloat "count" with
        | some c => enforceRange (rt.floatToInt c)
        | none => 1 := by
  unfold randomCount
  simp only
  split
  · split <;> rfl
  · split <;> rfl

theorem randomCount_get (rt : Runtime) (args : Args) (v : String)
    (h : (randomCount rt args []).2.Get "count" = some v) :
    v = Itoa (randomCount rt args []).1 := by
  unfold randomCount at h ⊢
  simp only at h ⊢
  split at h
  · split at h
    · rw [Values.Get_Set_self] at h
      simp only [Option.some.injEq] at h
      simp only [*]
    · simp [Values.Get] at h
  · split at h
    · rw [Values.Get_Set_self] at h
      simp only [Option.some.injEq] at h
      simp only [*]
    · simp [Values.Get] at h

theorem randomPhotoRequest_count (rt : Runtime) (args : Args) :
    (randomPhotoRequest rt args).1 = (randomCount rt args []).1 := rfl

theorem randomPhotoRequest_get_count (rt : Runtime) (args : Args) :
    (randomPhotoRequest rt args).2.Get "count" = (randomCount rt args []).2.Get "count" := by
  unfold randomPhotoRequest
  simp only
  rw [randomFeatured_get _ _ _ (by decide), setIfNonEmpty_get _ _ _ _ (by decide),
    setIfNonEmpty_get _ _ _ _ (by decide), setIfNonEmpty_get _ _ _ _ (by decide),
    setIfNonEmpty_get _ _ _ _ (by decide), setIfNonEmpty_get _ _ _ _ (by decide),
    setIfNonEmpty_get _ _ _ _ (by decide)]

theorem searchPhotosRequest_perPage (rt : Runtime) (args : Args) (input : SearchPhotosInput)
    (params : Values) (h : searchPhotosRequest rt args = .ok (input, params)) :
    params.Get "per_page" = some (Itoa input.PerPage) ∧
    input.PerPage =
      match args.asString "per_page" with
      | some pp =>
        match Atoi rt.intSize pp with
        | .ok perPage => enforceRange perPage
        | .error _ => 10
      | none =>
        match args.asFloat "per_page" with
        | some pp => enforceRange (rt.floatToInt pp)
        | none => 10 := by
  unfold searchPhotosRequest at h
  cases hq : args.asString "query" with
  | none => simp [hq] at h
  | some q =>
    simp only [hq, Except.ok.injEq] at h
    have h1 := congrArg Prod.fst h
    have h2 := congrArg Prod.snd h
    simp only at h1 h2
    rw [← h1, ← h2]
    rw [searchOrientation_get _ _ _ (by decide), searchColor_get _ _ _ (by decide),
      searchOrderBy_get _ _ _ (by decide), searchPerPage_get, searchOrientation_perPage,
      searchColor_perPage, searchOrderBy_perPage, searchPerPage_value, searchPage_perPage]
    exact ⟨rfl, rfl⟩


theorem lookup_isSome_iff (urls : List (String × String)) (k : String) :
    (urls.lookup k).isSome = true ↔ k ∈ urls.map Prod.fst := by
  induction urls with
  | nil => simp [List.lookup]
  | cons e urls ih =>
    rw [List.lookup_cons, List.map_cons, List.mem_cons]
    by_cases hk : k = e.1
    · simp [hk]
    · have hb : (k == e.1) = false := by simpa using hk
      simp [hb, hk, ih]

theorem preferredEntries_keys (urls : List (String × String)) :
    (preferredEntries urls).map Prod.fst =
      urlsToShow.filter (fun size => decide (size ∈ urls.map Prod.fst)) := by
  have hgen : ∀ ks : List String,
      (ks.filterMap (fun size => (urls.lookup size).map (fun url => (size, url)))).map
          Prod.fst =
        ks.filter (fun size => decide (size ∈ urls.map Prod.fst)) := by
    intro ks
    induction ks with
    | nil => rfl
    | cons k ks ih =>
      cases hk : urls.lookup k with
      | none =>
        have hnot : k ∉ urls.map Prod.fst := by
          rw [← lookup_isSome_iff, hk]; simp
        simp only [List.filterMap_cons, hk, Option.map_none', List.filter_cons, hnot,
          decide_False, Bool.false_eq_true, if_false]
        exact ih
      | some url =>
        have hmem : k ∈ urls.map Prod.fst := by
          rw [← lookup_isSome_iff, hk]; rfl
        simp only [List.filterMap_cons, hk, Option.map_some', List.map_cons, List.filter_cons,
          hmem, decide_True, if_true]
        rw [ih]
  exact hgen urlsToShow

theorem append_ne_empty (a b : String) (h : a ≠ "") : a ++ b ≠ "" := by
  intro hab
  apply h
  have hd := congrArg String.data hab
  rw [String.data_append] at hd
  apply String.ext
  exact (List.append_eq_nil.1 hd).1


/-! ### `Atoi` reads back what `Itoa` writes -/

theorem digitVal_digitChar (m : Nat) (h : m < 10) : digitVal (Nat.digitChar m) = some m := by
  interval_cases m <;> rfl

theorem digitChar_ne_sign (m : Nat) (h : m < 10) :
    Nat.digitChar m ≠ '-' ∧ Nat.digitChar m ≠ '+' := by
  interval_cases m <;> decide

theorem foldlM_toDigitsCore (fuel n : Nat) (ds : List Char) (h : n < fuel) :
    (Nat.toDigitsCore 10 fuel n ds).foldlM
        (fun n c => (digitVal c).map (fun d => n * 10 + d)) 0 =
      ds.foldlM (fun n c => (digitVal c).map (fun d => n * 10 + d)) n := by
  induction fuel generalizing n ds with
  | zero => omega
  | succ fuel ih =>
    unfold Nat.toDigitsCore
    simp only
    have hd : n % 10 < 10 := Nat.mod_lt _ (by decide)
    split_ifs with hn
    · have hlt : n < 10 := by omega
      rw [List.foldlM_cons, Nat.mod_eq_of_lt hlt, digitVal_digitChar n hlt]
      simp
    · rw [ih (n / 10) _ (by omega), List.foldlM_cons, digitVal_digitChar _ hd]
      have : n / 10 * 10 + n % 10 = n := by omega
      simp [this]

theorem toDigitsCore_chars (fuel n : Nat) (ds : List Char) :
    ∀ c ∈ Nat.toDigitsCore 10 fuel n ds, c ∈ ds ∨ ∃ m, m < 10 ∧ c = Nat.digitChar m := by
  induction fuel generalizing n ds with
  | zero => intro c hc; exact Or.inl hc
  | succ fuel ih =>
    intro c hc
    unfold Nat.toDigitsCore at hc
    simp only at hc
    have hd : n % 10 < 10 := Nat.mod_lt _ (by decide)
    split_ifs at hc with hn
    · rcases List.mem_cons.1 hc with h | h
      · exact Or.inr ⟨n % 10, hd, h⟩
      · exact Or.inl h
    · rcases ih _ _ c hc with h | h
      · rcases List.mem_cons.1 h with h | h
        · exact Or.inr ⟨n % 10, hd, h⟩
        · exact Or.inl h
      · exact Or.inr h

theorem toDigitsCore_ne_nil (fuel n : Nat) (ds : List Char) (h : fuel ≠ 0 ∨ ds ≠ []) :
    Nat.toDigitsCore 10 fuel n ds ≠ [] := by
  induction fuel generalizing n ds with
  | zero =>
    rcases h with h | h
    · exact absurd rfl h
    · exact h
  | succ fuel ih =>
    unfold Nat.toDigitsCore
    simp only
    split_ifs with hn
    · exact List.cons_ne_nil _ _
    · exact ih _ _ (Or.inr (List.cons_ne_nil _ _))

theorem toDigits_shape (n : Nat) :
    ∃ c rest, Nat.toDigits 10 n = c :: rest ∧ c ≠ '-' ∧ c ≠ '+' := by
  unfold Nat.toDigits
  cases hl : Nat.toDigitsCore 10 (n + 1) n [] with
  | nil => exact absurd hl (toDigitsCore_ne_nil _ _ _ (Or.inl (Nat.succ_ne_zero n)))
  | cons c rest =>
    refine ⟨c, rest, rfl, ?_⟩
    have hc : c ∈ Nat.toDigitsCore 10 (n + 1) n [] := by rw [hl]; exact List.mem_cons_self _ _
    rcases toDigitsCore_chars _ _ _ c hc with h | ⟨m, hm, rfl⟩
    · simp at h
    · exact digitChar_ne_sign m hm

theorem parseDigits_toDigits (n : Nat) : parseDigits (Nat.toDigits 10 n) = some n := by
  obtain ⟨c, rest, hl, -, -⟩ := toDigits_shape n
  unfold parseDigits
  rw [hl]
  simp only
  rw [← hl]
  unfold Nat.toDigits
  rw [foldlM_toDigitsCore _ _ _ (Nat.lt_succ_self n)]
  rfl

theorem splitSign_digit (c : Char) (rest : List Char) (h1 : c ≠ '-') (h2 : c ≠ '+') :
    splitSign (c :: rest) = (false, c :: rest) := by
  unfold splitSign
  split
  · rename_i heq; cases heq; exact absurd rfl h1
  · rename_i heq; cases heq; exact absurd rfl h2
  · rfl

theorem Atoi_Itoa (intSize : Nat) (k : Int) (hk : fitsInt intSize k) :
    Atoi intSize (Itoa k) = .ok k := by
  cases k with
  | ofNat m =>
    obtain ⟨c, rest, hl, h1, h2⟩ := toDigits_shape m
    have hs : (Itoa (Int.ofNat m)).toList = c :: rest := by
      rw [← hl]; rfl
    have hp : parseDigits (c :: rest) = some m := by
      rw [← hl]; exact parseDigits_toDigits m
    have hk' : fitsInt intSize (m : Int) := hk
    unfold Atoi
    simp only [hs, splitSign_digit c rest h1 h2, hp, Bool.false_eq_true, if_false, hk', if_true]
    rfl
  | negSucc m =>
    have hs : (Itoa (Int.negSucc m)).toList = '-' :: Nat.toDigits 10 (m + 1) := rfl
    have hk' : fitsInt intSize (-((m + 1 : Nat) : Int)) := hk
    unfold Atoi
    simp only [hs, splitSign, parseDigits_toDigits, if_true, hk']
    rfl

/-! ### The request of `search_photos`, exactly -/

theorem searchPage_eq (rt : Runtime) (args : Args) (q : String) (params : Values) :
    searchPage rt args
        ({ Query := q, Page := 1, PerPage := 10, OrderBy := "relevant", Color := "",
           Orientation := "" }, params) =
      ({ Query := q, Page := pageValue rt args, PerPage := 10, OrderBy := "relevant",
         Color := "", Orientation := "" },
       params.Set "page" (Itoa (pageValue rt args))) := by
  unfold searchPage pageValue Args.asString Args.asFloat
  rcases h : args.lookup "page" with _ | v
  · rfl
  · cases v with
    | str s => simp only; cases Atoi rt.intSize s <;> rfl
    | _ => rfl

theorem searchPerPage_eq (rt : Runtime) (args : Args) (q : String) (page : Int)
    (params : Values) :
    searchPerPage rt args
        ({ Query := q, Page := page, PerPage := 10, OrderBy := "relevant", Color := "",
           Orientation := "" }, params) =
      ({ Query := q, Page := page, PerPage := perPageValue rt args, OrderBy := "relevant",
         Color := "", Orientation := "" },
       params.Set "per_page" (Itoa (perPageValue rt args))) := by
  unfold searchPerPage perPageValue Args.asString Args.asFloat
  rcases h : args.lookup "per_page" with _ | v
  · rfl
  · cases v with
    | str s => simp only; cases Atoi rt.intSize s <;> simp only [enforceRange_eq]
    | num p => simp only [enforceRange_eq]
    | _ => rfl

theorem searchOrderBy_eq (args : Args) (q : String) (page perPage : Int) (params : Values) :
    searchOrderBy args
        ({ Query := q, Page := page, PerPage := perPage, OrderBy := "relevant", Color := "",
           Orientation := "" }, params) =
      ({ Query := q, Page := page, PerPage := perPage, OrderBy := orderByValue args,
         Color := "", Orientation := "" },
       params.Set "order_by" (orderByValue args)) := by
  unfold searchOrderBy orderByValue Args.asString
  rcases h : args.lookup "order_by" with _ | v
  · rfl
  · cases v <;> rfl

theorem searchColor_eq (args : Args) (q ob : String) (page perPage : Int) (params : Values) :
    searchColor args
        ({ Query := q, Page := page, PerPage := perPage, OrderBy := ob, Color := "",
           Orientation := "" }, params) =
      ({ Query := q, Page := page, PerPage := perPage, OrderBy := ob,
         Color := optionalValue args "color", Orientation := "" },
       if optionalValue args "color" ≠ "" then params.Set "color" (optionalValue args "color")
       else params) := by
  unfold searchColor optionalValue Args.asString
  rcases h : args.lookup "color" with _ | v
  · rfl
  · cases v with
    | str s =>
      simp only
      by_cases hs : s = ""
      · simp [hs]
      · simp [hs]
    | _ => rfl

theorem searchOrientation_eq (args : Args) (q ob c : String) (page perPage : Int)
    (params : Values) :
    searchOrientation args
        ({ Query := q, Page := page, PerPage := perPage, OrderBy := ob, Color := c,
           Orientation := "" }, params) =
      ({ Query := q, Page := page, PerPage := perPage, OrderBy := ob, Color := c,
         Orientation := optionalValue args "orientation" },
       if optionalValue args "orientation" ≠ "" then
         params.Set "orientation" (optionalValue args "orientation")
       else params) := by
  unfold searchOrientation optionalValue Args.asString
  rcases h : args.lookup "orientation" with _ | v
  · rfl
  · cases v with
    | str s =>
      simp only
      by_cases hs : s = ""
      · simp [hs]
      · simp [hs]
    | _ => rfl

theorem searchPhotosRequest_eq (rt : Runtime) (args : Args) :
    searchPhotosRequest rt args =
      match args.asString "query" with
      | none => .error "missing required parameter: query"
      | some q =>
        .ok ({ Query := q, Page := pageValue rt args, PerPage := perPageValue rt args,
               OrderBy := orderByValue args, Color := optionalValue args "color",
               Orientation := optionalValue args "orientation" },
             searchParams rt args q) := by
  unfold searchPhotosRequest
  cases hq : args.asString "query" with
  | none => rfl
  | some q =>
    simp only [searchPage_eq, searchPerPage_eq, searchOrderBy_eq, searchColor_eq,
      searchOrientation_eq, searchParams, optionalParam]
    by_cases hc : optionalValue args "color" = "" <;>
      by_cases ho : optionalValue args "orientation" = "" <;>
      simp [hc, ho, Values.Set]

/-! ### The handlers after the request is built -/

theorem createRandomPhotoTool_eq (rt : Runtime) (client : UnsplashClient) (args : Args) :
    createRandomPhotoTool rt client args =
      match (client.makeAPIRequest rt "GET" "/photos/random"
          (some (randomPhotoRequest rt args).2)).2 with
      | .error err => .error ("failed to get random photo(s): " ++ err)
      | .ok body =>
        if (randomPhotoRequest rt args).1 = 1 then
          match rt.unmarshalPhoto body with
          | .error err => .error ("failed to decode single random photo: " ++ err)
          | .ok singlePhoto => .ok (randomPhotoReport [singlePhoto])
        else
          match rt.unmarshalPhotos body with
          | .error err => .error ("failed to decode multiple random photos: " ++ err)
          | .ok photos => .ok (randomPhotoReport photos) := by
  unfold createRandomPhotoTool
  rcases hr : randomPhotoRequest rt args with ⟨count, params⟩
  simp only
  cases (client.makeAPIRequest rt "GET" "/photos/random" (some params)).2 with
  | error err => rfl
  | ok body =>
    simp only
    by_cases hc : count = 1
    · simp only [hc, if_true]
      cases rt.unmarshalPhoto body <;> rfl
    · simp only [hc, if_false]
      cases rt.unmarshalPhotos body <;> rfl

theorem createGetPhotoTool_eq (rt : Runtime) (client : UnsplashClient) (args : Args)
    (photoID : String) (hid : args.asString "photoId" = some photoID) (hne : photoID ≠ "") :
    createGetPhotoTool rt client args =
      match (client.makeAPIRequest rt "GET" ("/photos/" ++ photoID) none).2 with
      | .error err => .error ("failed to get photo " ++ photoID ++ ": " ++ err)
      | .ok body =>
        match rt.unmarshalPhoto body with
        | .error err => .error ("failed to decode photo details: " ++ err)
        | .ok photo => .ok (formatPhotoDetails photo) := by
  unfold createGetPhotoTool
  simp only [hid, hne, if_false]

theorem createSearchPhotosTool_eq (rt : Runtime) (client : UnsplashClient) (args : Args)
    (q : String) (hq : args.asString "query" = some q) :
    createSearchPhotosTool rt client args =
      match (client.makeAPIRequest rt "GET" "/search/photos"
          (some (searchParams rt args q))).2 with
      | .error err => .error ("failed to search photos: " ++ err)
      | .ok body =>
        match rt.unmarshalSearch body with
        | .error err => .error ("failed to decode search response: " ++ err)
        | .ok searchResponse =>
          .ok (searchPhotosReport
            { Query := q, Page := pageValue rt args, PerPage := perPageValue rt args,
              OrderBy := orderByValue args, Color := optionalValue args "color",
              Orientation := optionalValue args "orientation" } searchResponse) := by
  unfold createSearchPhotosTool
  rw [searchPhotosRequest_eq, hq]

theorem searchPhotosReport_eq (input : SearchPhotosInput) (searchResponse : SearchResponse) :
    searchPhotosReport input searchResponse =
      "Found " ++ toString searchResponse.Results.length ++ " photos (Page " ++
        toString input.Page ++ "/" ++ toString searchResponse.TotalPages ++ "):\n\n" ++
        String.join (searchResponse.Results.map (fun photo => formatPhotoSummary photo ++ "\n")) := by
  unfold searchPhotosReport
  simp only [String.append_assoc]
  rw [foldl_append_eq (fun photo => formatPhotoSummary photo ++ "\n")]
  simp only [String.empty_append, String.append_assoc]

theorem randomReport_loop (photos : List UnsplashPhoto) (sb : String) (n : Nat) :
    (photos.foldl
        (fun (st : String × Nat) photo =>
          (st.1 ++ ("Photo " ++ toString (st.2 + 1) ++ ":\n") ++ formatPhotoSummary photo ++
            "\n", st.2 + 1))
        (sb, n)).1 =
      sb ++ String.join ((photos.enumFrom n).map (fun ip => photoBlock ip.1 ip.2)) := by
  induction photos generalizing sb n with
  | nil => simp [String.join]
  | cons p photos ih =>
    rw [List.foldl_cons, ih, List.enumFrom_cons, List.map_cons, join_cons]
    simp only [photoBlock, String.append_assoc]

theorem randomPhotoReport_eq (photos : List UnsplashPhoto) :
    randomPhotoReport photos =
      "Random Photos (" ++ toString photos.length ++ "):\n\n" ++
        String.join (photos.enum.map (fun ip => photoBlock ip.1 ip.2)) := by
  unfold randomPhotoReport
  simp only [String.empty_append]
  rw [randomReport_loop]
  rfl

theorem randomPhotoRequest_get_count_none (rt : Runtime) (args : Args) (s : String)
    (e : NumError) (hs : args.lookup "count" = some (Val.str s))
    (he : Atoi rt.intSize s = .error e) :
    (randomPhotoRequest rt args).1 = 1 ∧ (randomPhotoRequest rt args).2.Get "count" = none := by
  have hs' : args.asString "count" = some s := by simp [Args.asString, hs]
  constructor
  · rw [randomPhotoRequest_count, randomCount_value, hs']
    simp only [he]
  · rw [randomPhotoRequest_get_count]
    unfold randomCount
    simp only [hs', he]
    rfl

theorem optionalValue_ne_empty_iff (args : Args) (key : String) :
    optionalValue args key ≠ "" ↔ ∃ c, args.lookup key = some (Val.str c) ∧ c ≠ "" := by
  unfold optionalValue
  rcases h : args.lookup key with _ | v
  · simp
  · cases v <;> simp

theorem makeAPIRequest_response_result (rt : Runtime) (c : UnsplashClient)
    (method endpoint : String) (params : Option Values) (s : Int) (b : String)
    (hreq : rt.newRequestErr method (requestURL endpoint params) = none)
    (hresp : c.client (c.newRequest method (requestURL endpoint params)) = .response s b) :
    (c.makeAPIRequest rt method endpoint params).2 =
      if s < 200 ∨ s ≥ 300 then .error ("unsplash API error: status code " ++ toString s)
      else .ok b := by
  unfold UnsplashClient.makeAPIRequest
  simp only [hreq, hresp]
  split_ifs <;> rfl

theorem pageValue_of_text (rt : Runtime) (args : Args) (k : Int)
    (hk : fitsInt rt.intSize k)
    (h : args.lookup "page" = some (Val.str (Itoa k)) ∨
      args.lookup "page" = some (Val.num k)) :
    pageValue rt args = k := by
  unfold pageValue
  rcases h with h | h
  · simp only [h, Atoi_Itoa rt.intSize k hk]
  · simp only [h, floatToInt_intCast rt k hk]

theorem randomCount_get_of_gt (rt : Runtime) (args : Args)
    (h : 1 < (randomCount rt args []).1) :
    (randomCount rt args []).2.Get "count" = some (Itoa (randomCount rt args []).1) := by
  unfold randomCount at h ⊢
  simp only at h ⊢
  cases hs : args.asString "count" with
  | some c =>
    simp only [hs] at h ⊢
    cases he : Atoi rt.intSize c with
    | ok countNum => exact Values.Get_Set_self _ _ _
    | error e =>
      simp only [he] at h
      omega
  | none =>
    simp only [hs] at h ⊢
    cases hf : args.asFloat "count" with
    | some c => exact Values.Get_Set_self _ _ _
    | none =>
      simp only [hf] at h
      omega

theorem createSearchPhotosTool_of_request (rt : Runtime) (args : Args)
    (input : SearchPhotosInput) (params : Values)
    (h : searchPhotosRequest rt args = .ok (input, params)) (client : UnsplashClient) :
    createSearchPhotosTool rt client args =
      match (client.makeAPIRequest rt "GET" "/search/photos" (some params)).2 with
      | .error err => .error ("failed to search photos: " ++ err)
      | .ok body =>
        match rt.unmarshalSearch body with
        | .error err => .error ("failed to decode search response: " ++ err)
        | .ok searchResponse => .ok (searchPhotosReport input searchResponse) := by
  unfold createSearchPhotosTool
  rw [h]

theorem Atoi_Itoa_not_fits (intSize : Nat) (k : Int) (hk : ¬ fitsInt intSize k) :
    Atoi intSize (Itoa k) = .error .errRange := by
  cases k with
  | ofNat m =>
    obtain ⟨c, rest, hl, h1, h2⟩ := toDigits_shape m
    have hs : (Itoa (Int.ofNat m)).toList = c :: rest := by
      rw [← hl]; rfl
    have hp : parseDigits (c :: rest) = some m := by
      rw [← hl]; exact parseDigits_toDigits m
    have hk' : ¬ fitsInt intSize (m : Int) := hk
    unfold Atoi
    simp only [hs, splitSign_digit c rest h1 h2, hp, Bool.false_eq_true, if_false, hk']
  | negSucc m =>
    have hs : (Itoa (Int.negSucc m)).toList = '-' :: Nat.toDigits 10 (m + 1) := rfl
    have hk' : ¬ fitsInt intSize (-((m + 1 : Nat) : Int)) := hk
    unfold Atoi
    simp only [hs, splitSign, parseDigits_toDigits, if_true, hk', if_false]

/-! ## The claims -/

/-- C1 (the code at the failing input). With `count` given as the string "1", as the
number 1, or as a number clamped up to 1, the effective count is 1 and the request of
`random_photo` still carries `count=1`: the parameter is set whenever a count was parsed, not
only for a count above 1. -/
theorem random_count_one_sets_count_param :
    randomPhotoRequest sampleRuntime [("count", Val.str "1")] = (1, [("count", "1")]) ∧
    randomPhotoRequest sampleRuntime [("count", Val.num 1)] = (1, [("count", "1")]) ∧
    randomPhotoRequest sampleRuntime [("count", Val.num (-5))] = (1, [("count", "1")]) ∧
    requestURL "/photos/random"
        (some (randomPhotoRequest sampleRuntime [("count", Val.str "1")]).2) =
      "https://api.unsplash.com/photos/random?count=1" := by
  decide

/-- C2 (the code at the failing input). With `query` the empty string the `search_photos`
handler builds a request and calls the client: its result is the client's failure, or the
report of the client's response, not a validation error. -/
theorem search_empty_query_calls_client :
    searchPhotosRequest sampleRuntime [("query", Val.str "")] =
      .ok ({ Query := "", Page := 1, PerPage := 10, OrderBy := "relevant", Color := "",
             Orientation := "" },
           [("query", ""), ("page", "1"), ("per_page", "10"), ("order_by", "relevant")]) ∧
    createSearchPhotosTool sampleRuntime (constClient (.doErr "EOF"))
        [("query", Val.str "")] =
      .error "failed to search photos: failed to perform request: EOF" ∧
    createSearchPhotosTool sampleRuntime
        (constClient
          (.response 200 "\x7b\"results\":[\x7b\"id\":\"abc\"\x7d],\"total\":1,\"total_pages\":5\x7d"))
        [("query", Val.str "")] =
      .ok ("Found 1 photos (Page 1/5):\n\n" ++ formatPhotoSummary samplePhoto ++ "\n") := by
  decide

/-- C3 (the code at the failing input). With `featured` the native boolean false the request
of `random_photo` carries `featured=false`, while the string "false" sets no parameter. -/
theorem random_featured_false_sets_param :
    randomPhotoRequest sampleRuntime [("featured", Val.bool false)] =
      (1, [("featured", "false")]) ∧
    randomPhotoRequest sampleRuntime [("featured", Val.str "false")] = (1, []) ∧
    requestURL "/photos/random"
        (some (randomPhotoRequest sampleRuntime [("featured", Val.bool false)]).2) =
      "https://api.unsplash.com/photos/random?featured=false" := by
  decide

/-- C4 (counterexample). A photo whose `User` is present with empty name, username and
portfolio URL gets a Photographer section, with an empty Name line and the Username line
`@`. -/
theorem details_empty_user_has_photographer :
    formatPhotoDetails { emptyPhoto with User := some ⟨"", "", ""⟩ } =
      "Photo Details:\n\n- ID: \n- Size: 0x0\n- Likes: 0\n" ++
        "\nPhotographer:\n- Name: \n- Username: @\n" ++ "\nURLs:\n" ∧
    formatPhotoDetails { emptyPhoto with User := none } =
      "Photo Details:\n\n- ID: \n- Size: 0x0\n- Likes: 0\n" ++ "\nURLs:\n" := by
  decide

/-- C4 (amended). For every photo, `formatPhotoDetails` emits the Photographer section
exactly when `User` is present: around a fixed text that does not depend on `User`, an absent
`User` adds nothing, and a present one adds the header, the Name line, the Username line (both
also when empty) and the Portfolio line when the portfolio URL is non-empty. -/
theorem details_photographer_iff_user_present (photo : UnsplashPhoto) :
    ∃ pre post : String,
      formatPhotoDetails { photo with User := none } = pre ++ post ∧
      ∀ user : User,
        formatPhotoDetails { photo with User := some user } =
          pre ++
            ("\nPhotographer:\n" ++ ("- Name: " ++ user.Name ++ "\n") ++
              ("- Username: @" ++ user.Username ++ "\n") ++
              (if user.PortfolioURL ≠ "" then "- Portfolio: " ++ user.PortfolioURL ++ "\n"
                else "")) ++
            post := by
  refine ⟨detailsHead photo,
    locationSection photo.Location ++ cameraInfoSection photo.Exif ++ detailsTail photo, ?_, ?_⟩
  · rw [formatPhotoDetails_sections]
    simp only [photographerSection, detailsHead, detailsTail, String.append_assoc,
      String.empty_append, String.append_empty]
  · intro user
    rw [formatPhotoDetails_sections]
    simp only [photographerSection, optionalLine, detailsHead, detailsTail,
      String.append_assoc, String.empty_append, String.append_empty]

/-- C5 (counterexample). Two 404 responses with different bodies give the same error: the
error holds the status code only. -/
theorem upstream_error_same_for_different_bodies :
    (UnsplashClient.makeAPIRequest sampleRuntime
        (constClient (.response 404 "\x7b\"errors\":[\"not found\"]\x7d")) "GET" "/photos/x" none).2 =
      .error "unsplash API error: status code 404" ∧
    (UnsplashClient.makeAPIRequest sampleRuntime
        (constClient (.response 404 "<html>gone</html>")) "GET" "/photos/x" none).2 =
      .error "unsplash API error: status code 404" := by
  decide

/-- C5 (amended). When the request can be created and the upstream answers with status `s`
and body `b`, `makeAPIRequest` returns `b` unchanged for `200 <= s < 300`; otherwise it fails
with the error "unsplash API error: status code s", which holds the status code and not the
body, and writes the body to the log. -/
theorem makeAPIRequest_on_response (rt : Runtime) (c : UnsplashClient)
    (method endpoint : String) (params : Option Values) (s : Int) (b : String)
    (hreq : rt.newRequestErr method (requestURL endpoint params) = none)
    (hresp : c.client (c.newRequest method (requestURL endpoint params)) = .response s b) :
    c.makeAPIRequest rt method endpoint params =
      if 200 ≤ s ∧ s < 300 then
        (["Making API request to: " ++ requestURL endpoint params], .ok b)
      else
        (["Making API request to: " ++ requestURL endpoint params,
          "API Error: Status " ++ toString s ++ ", Body: " ++ b],
         .error ("unsplash API error: status code " ++ toString s)) := by
  unfold UnsplashClient.makeAPIRequest
  simp only [hreq, hresp]
  by_cases h : 200 ≤ s ∧ s < 300
  · have h' : ¬ (s < 200 ∨ s ≥ 300) := by omega
    simp [h, h']
  · have h' : s < 200 ∨ s ≥ 300 := by omega
    simp [h, h']

/-- Witness of `makeAPIRequest_on_response`: a 200 response with body "ok". -/
theorem makeAPIRequest_on_response_witness :
    (constClient (.response 200 "ok")).makeAPIRequest sampleRuntime "GET" "/photos/x" none =
      (["Making API request to: https://api.unsplash.com/photos/x"], .ok "ok") :=
  (makeAPIRequest_on_response sampleRuntime (constClient (.response 200 "ok")) "GET"
    "/photos/x" none 200 "ok" rfl rfl).trans (by decide)

/-- C6 (counterexample). The string "9223372036854775808" holds the decimal integer 2^63,
which `strconv.Atoi` rejects on a 64-bit platform: `per_page` stays 10, not
`min 30 (max 1 (2^63)) = 30`. -/
theorem search_per_page_out_of_range_string :
    searchPhotosRequest sampleRuntime
        [("query", Val.str "cats"), ("per_page", Val.str "9223372036854775808")] =
      .ok ({ Query := "cats", Page := 1, PerPage := 10, OrderBy := "relevant", Color := "",
             Orientation := "" },
           [("query", "cats"), ("page", "1"), ("per_page", "10"), ("order_by", "relevant")]) ∧
    Itoa 9223372036854775808 = "9223372036854775808" ∧
    min 30 (max 1 (9223372036854775808 : Int)) = 30 := by
  decide

/-- C6 (amended). Whenever `search_photos` builds a request, its `per_page` parameter is the
decimal text of an integer `n` with `1 <= n <= 30`. For an integer `k` that fits `int`, given
as its decimal text or as a number of that value, `n = min 30 (max 1 k)`; the same holds for
every string that `strconv.Atoi` parses to `k`. For a string that `Atoi` rejects (also a
decimal integer out of the range of `int`) and for an absent argument, `n = 10`. -/
theorem search_per_page_clamped (rt : Runtime) (args : Args) (input : SearchPhotosInput)
    (params : Values) (h : searchPhotosRequest rt args = .ok (input, params)) :
    params.Get "per_page" = some (Itoa input.PerPage) ∧
    1 ≤ input.PerPage ∧ input.PerPage ≤ 30 ∧
    (∀ k : Int, args.lookup "per_page" = some (Val.str (Itoa k)) → fitsInt rt.intSize k →
      input.PerPage = min 30 (max 1 k)) ∧
    (∀ s k, args.lookup "per_page" = some (Val.str s) → Atoi rt.intSize s = .ok k →
      input.PerPage = min 30 (max 1 k)) ∧
    (∀ s e, args.lookup "per_page" = some (Val.str s) → Atoi rt.intSize s = .error e →
      input.PerPage = 10) ∧
    (∀ k : Int, args.lookup "per_page" = some (Val.num k) → fitsInt rt.intSize k →
      input.PerPage = min 30 (max 1 k)) ∧
    (args.lookup "per_page" = none → input.PerPage = 10) := by
  obtain ⟨hget, hval⟩ := searchPhotosRequest_perPage rt args input params h
  refine ⟨hget, ?_, ?_, ?_, ?_, ?_, ?_, ?_⟩
  · rw [hval]
    split
    · split
      · exact (enforceRange_bounds _).1
      · decide
    · split
      · exact (enforceRange_bounds _).1
      · decide
  · rw [hval]
    split
    · split
      · exact (enforceRange_bounds _).2
      · decide
    · split
      · exact (enforceRange_bounds _).2
      · decide
  · intro k hs hfits
    have hs' : args.asString "per_page" = some (Itoa k) := by simp [Args.asString, hs]
    rw [hval, hs']
    simp only [Atoi_Itoa rt.intSize k hfits, enforceRange_eq]
  · intro s k hs hk
    have hs' : args.asString "per_page" = some s := by simp [Args.asString, hs]
    rw [hval, hs']
    simp only [hk, enforceRange_eq]
  · intro s e hs he
    have hs' : args.asString "per_page" = some s := by simp [Args.asString, hs]
    rw [hval, hs']
    simp only [he]
  · intro k hk hfits
    obtain ⟨h1, h2⟩ := asString_of_lookup_num hk
    rw [hval, h1, h2]
    simp only [floatToInt_intCast rt k hfits, enforceRange_eq]
  · intro hnone
    obtain ⟨h1, h2, _⟩ := asString_of_lookup_none hnone
    rw [hval, h1, h2]

/-- Witness of `search_per_page_clamped`: `per_page` given as the string "45" is sent
as 30. -/
theorem search_per_page_clamped_witness :
    searchPhotosRequest sampleRuntime [("query", Val.str "cats"), ("per_page", Val.str "45")] =
      .ok ({ Query := "cats", Page := 1, PerPage := 30, OrderBy := "relevant", Color := "",
             Orientation := "" },
           [("query", "cats"), ("page", "1"), ("per_page", "30"), ("order_by", "relevant")]) ∧
    (30 : Int) = min 30 (max 1 45) :=
  ⟨by decide,
    (search_per_page_clamped sampleRuntime
      [("query", Val.str "cats"), ("per_page", Val.str "45")]
      { Query := "cats", Page := 1, PerPage := 30, OrderBy := "relevant", Color := "",
        Orientation := "" }
      [("query", "cats"), ("page", "1"), ("per_page", "30"), ("order_by", "relevant")]
      (by decide)).2.2.2.1 45 (by decide) (by decide)⟩

/-- C7 (counterexample). The string "9223372036854775808" holds the decimal integer 2^63,
which `strconv.Atoi` rejects on a 64-bit platform: the effective count stays 1, not
`min 30 (max 1 (2^63)) = 30`, and no `count` parameter is set. -/
theorem random_count_out_of_range_string :
    randomPhotoRequest sampleRuntime [("count", Val.str "9223372036854775808")] = (1, []) ∧
    Itoa 9223372036854775808 = "9223372036854775808" ∧
    min 30 (max 1 (9223372036854775808 : Int)) = 30 := by
  decide

/-- C7 (amended). The effective count of `random_photo` is an integer `n` with
`1 <= n <= 30`. For an integer `k` that fits `int`, given as its decimal text or as a number
of that value, `n = min 30 (max 1 k)`; the same holds for every string that `strconv.Atoi`
parses to `k`. For a string that `Atoi` rejects (also a decimal integer out of the range of
`int`) and for an absent argument, `n = 1`. -/
theorem random_count_clamped (rt : Runtime) (args : Args) :
    1 ≤ (randomPhotoRequest rt args).1 ∧ (randomPhotoRequest rt args).1 ≤ 30 ∧
    (∀ k : Int, args.lookup "count" = some (Val.str (Itoa k)) → fitsInt rt.intSize k →
      (randomPhotoRequest rt args).1 = min 30 (max 1 k)) ∧
    (∀ s k, args.lookup "count" = some (Val.str s) → Atoi rt.intSize s = .ok k →
      (randomPhotoRequest rt args).1 = min 30 (max 1 k)) ∧
    (∀ s e, args.lookup "count" = some (Val.str s) → Atoi rt.intSize s = .error e →
      (randomPhotoRequest rt args).1 = 1) ∧
    (∀ k : Int, args.lookup "count" = some (Val.num k) → fitsInt rt.intSize k →
      (randomPhotoRequest rt args).1 = min 30 (max 1 k)) ∧
    (args.lookup "count" = none → (randomPhotoRequest rt args).1 = 1) := by
  rw [randomPhotoRequest_count, randomCount_value]
  refine ⟨?_, ?_, ?_, ?_, ?_, ?_, ?_⟩
  · split
    · split
      · exact (enforceRange_bounds _).1
      · decide
    · split
      · exact (enforceRange_bounds _).1
      · decide
  · split
    · split
      · exact (enforceRange_bounds _).2
      · decide
    · split
      · exact (enforceRange_bounds _).2
      · decide
  · intro k hs hfits
    have hs' : args.asString "count" = some (Itoa k) := by simp [Args.asString, hs]
    rw [hs']
    simp only [Atoi_Itoa rt.intSize k hfits, enforceRange_eq]
  · intro s k hs hk
    have hs' : args.asString "count" = some s := by simp [Args.asString, hs]
    rw [hs']
    simp only [hk, enforceRange_eq]
  · intro s e hs he
    have hs' : args.asString "count" = some s := by simp [Args.asString, hs]
    rw [hs']
    simp only [he]
  · intro k hk hfits
    obtain ⟨h1, h2⟩ := asString_of_lookup_num hk
    rw [h1, h2]
    simp only [floatToInt_intCast rt k hfits, enforceRange_eq]
  · intro hnone
    obtain ⟨h1, h2, _⟩ := asString_of_lookup_none hnone
    rw [h1, h2]

/-- Witness of `random_count_clamped`: `count` given as the number 45 gives the effective
count 30. -/
theorem random_count_clamped_witness :
    (randomPhotoRequest sampleRuntime [("count", Val.num 45)]).1 = min 30 (max 1 45) :=
  (random_count_clamped sampleRuntime [("count", Val.num 45)]).2.2.2.2.2.1 45
    (by decide) (by decide)

/-- C8. For every argument mapping, the effective count `count` of `random_photo` is 1 or
greater than 1; a `count` parameter of the request, when set, is the text of that same
`count`, and for `count > 1` it is set: the request carries the very `count` the decoder
branches on. When `count = 1` the handler decodes the body as a single photo (and reports
that one photo), and when `count > 1` it decodes the body as a sequence of photos (and
reports them in order). -/
theorem random_decode_follows_count (rt : Runtime) (client : UnsplashClient) (args : Args) :
    ((randomPhotoRequest rt args).1 = 1 ∨ 1 < (randomPhotoRequest rt args).1) ∧
    (∀ v, (randomPhotoRequest rt args).2.Get "count" = some v →
      v = Itoa (randomPhotoRequest rt args).1) ∧
    (1 < (randomPhotoRequest rt args).1 →
      (randomPhotoRequest rt args).2.Get "count" =
        some (Itoa (randomPhotoRequest rt args).1)) ∧
    ((randomPhotoRequest rt args).1 = 1 →
      createRandomPhotoTool rt client args =
        match (client.makeAPIRequest rt "GET" "/photos/random"
            (some (randomPhotoRequest rt args).2)).2 with
        | .error err => .error ("failed to get random photo(s): " ++ err)
        | .ok body =>
          match rt.unmarshalPhoto body with
          | .error err => .error ("failed to decode single random photo: " ++ err)
          | .ok singlePhoto => .ok (randomPhotoReport [singlePhoto])) ∧
    (1 < (randomPhotoRequest rt args).1 →
      createRandomPhotoTool rt client args =
        match (client.makeAPIRequest rt "GET" "/photos/random"
            (some (randomPhotoRequest rt args).2)).2 with
        | .error err => .error ("failed to get random photo(s): " ++ err)
        | .ok body =>
          match rt.unmarshalPhotos body with
          | .error err => .error ("failed to decode multiple random photos: " ++ err)
          | .ok photos => .ok (randomPhotoReport photos)) := by
  have hlow : 1 ≤ (randomPhotoRequest rt args).1 := by
    rw [randomPhotoRequest_count, randomCount_value]
    split
    · split
      · exact (enforceRange_bounds _).1
      · decide
    · split
      · exact (enforceRange_bounds _).1
      · decide
  refine ⟨?_, ?_, ?_, ?_, ?_⟩
  · omega
  · intro v hv
    rw [randomPhotoRequest_get_count] at hv
    rw [randomPhotoRequest_count]
    exact randomCount_get rt args v hv
  · intro hgt
    rw [randomPhotoRequest_count] at hgt
    rw [randomPhotoRequest_get_count, randomPhotoRequest_count]
    exact randomCount_get_of_gt rt args hgt
  · intro h1
    unfold createRandomPhotoTool
    rcases hr : randomPhotoRequest rt args with ⟨count, params⟩
    rw [hr] at h1
    simp only at h1
    subst h1
    simp only [if_true]
    cases (client.makeAPIRequest rt "GET" "/photos/random" (some params)).2 with
    | error err => rfl
    | ok body =>
      simp only
      cases rt.unmarshalPhoto body <;> rfl
  · intro h1
    unfold createRandomPhotoTool
    rcases hr : randomPhotoRequest rt args with ⟨count, params⟩
    rw [hr] at h1
    simp only at h1
    have hne : ¬ count = 1 := by omega
    simp only [hne, if_false]
    cases (client.makeAPIRequest rt "GET" "/photos/random" (some params)).2 with
    | error err => rfl
    | ok body =>
      simp only
      cases rt.unmarshalPhotos body <;> rfl

/-- Witness of `random_decode_follows_count`: with `count` 2 the request carries `count=2`,
and a body holding a sequence of one photo is decoded as a sequence and reported. -/
theorem random_decode_follows_count_witness :
    (randomPhotoRequest sampleRuntime [("count", Val.num 2)]).2.Get "count" = some "2" ∧
    createRandomPhotoTool sampleRuntime (constClient (.response 200 "[\x7b\"id\":\"abc\"\x7d]"))
        [("count", Val.num 2)] =
      .ok ("Random Photos (1):\n\nPhoto 1:\n" ++ formatPhotoSummary samplePhoto ++ "\n") :=
  ⟨((random_decode_follows_count sampleRuntime
      (constClient (.response 200 "[\x7b\"id\":\"abc\"\x7d]")) [("count", Val.num 2)]).2.2.1
      (by decide)).trans (by decide),
    ((random_decode_follows_count sampleRuntime
      (constClient (.response 200 "[\x7b\"id\":\"abc\"\x7d]"))
      [("count", Val.num 2)]).2.2.2.2 (by decide)).trans (by decide)⟩

/-- C9. For every photo whose URL map is well formed (no key twice), the URL listing of
`formatPhotoSummary` follows the line `URLs:` and consists of one line per entry: first the
entries of the keys among "small", "regular", "full", "raw" that the map holds, in that
order, then the entries of all other keys; the listed entries are a permutation of the
entries of the map, so each appears exactly once. -/
theorem summary_url_listing (photo : UnsplashPhoto)
    (hmap : (photo.URLs.map Prod.fst).Nodup) :
    formatPhotoSummary photo =
      summaryHead photo ++
        String.join
          ((preferredEntries photo.URLs ++ remainingEntries photo.URLs).map
            (fun e => summaryUrlLine e.1 e.2)) ∧
    (preferredEntries photo.URLs).map Prod.fst =
      ["small", "regular", "full", "raw"].filter
        (fun size => decide (size ∈ photo.URLs.map Prod.fst)) ∧
    (∀ e, e ∈ preferredEntries photo.URLs ↔
      e ∈ photo.URLs ∧ e.1 ∈ ["small", "regular", "full", "raw"]) ∧
    (∀ e, e ∈ remainingEntries photo.URLs ↔
      e ∈ photo.URLs ∧ e.1 ∉ ["small", "regular", "full", "raw"]) ∧
    (preferredEntries photo.URLs ++ remainingEntries photo.URLs).Perm photo.URLs :=
  ⟨formatPhotoSummary_listing photo, preferredEntries_keys photo.URLs,
    mem_preferredEntries hmap, mem_remainingEntries photo.URLs,
    summary_entries_perm photo.URLs hmap⟩

/-- Witness of `summary_url_listing`: the map with the entries full, small, thumb is listed
as small, then full, then thumb. -/
theorem summary_url_listing_witness :
    samplePhoto.URLs = [("full", "f"), ("small", "s"), ("thumb", "t")] ∧
    (samplePhoto.URLs.map Prod.fst).Nodup ∧
    formatPhotoSummary samplePhoto =
      "- ID: abc\n  Size: 4x3\n  URLs:\n    small: s\n    full: f\n    thumb: t\n" ∧
    preferredEntries samplePhoto.URLs ++ remainingEntries samplePhoto.URLs =
      [("small", "s"), ("full", "f"), ("thumb", "t")] :=
  ⟨rfl, by decide, (summary_url_listing samplePhoto (by decide)).1.trans (by decide),
    by decide⟩

/-- C10. For every photo, around a fixed text that does not depend on `Exif`,
`formatPhotoDetails` writes the Camera Info section: nothing when `Exif` is absent or when
every text field is empty and the ISO is not positive; otherwise the header, one line for
each non-empty text field and the ISO line exactly when the ISO is positive. With ISO 0 and
every other field empty there is no section; with ISO 400 and every other field empty the
section is the header and the ISO line. -/
theorem details_camera_info_section (photo : UnsplashPhoto) :
    ∃ pre post : String,
      (∀ exif : Option Exif,
        formatPhotoDetails { photo with Exif := exif } =
          pre ++ cameraInfoSection exif ++ post) ∧
      (∀ exif : Option Exif,
        cameraInfoSection exif ≠ "" ↔
          ∃ x, exif = some x ∧
            (x.Make ≠ "" ∨ x.Model ≠ "" ∨ x.ExposureTime ≠ "" ∨ x.Aperture ≠ "" ∨
              x.FocalLength ≠ "" ∨ x.ISO > 0)) ∧
      (∀ x : Exif,
        x.Make ≠ "" ∨ x.Model ≠ "" ∨ x.ExposureTime ≠ "" ∨ x.Aperture ≠ "" ∨
            x.FocalLength ≠ "" ∨ x.ISO > 0 →
          cameraInfoSection (some x) =
            "\nCamera Info:\n" ++
              (if x.Make ≠ "" then "- Camera Make: " ++ x.Make ++ "\n" else "") ++
              (if x.Model ≠ "" then "- Camera Model: " ++ x.Model ++ "\n" else "") ++
              (if x.ExposureTime ≠ "" then "- Exposure Time: " ++ x.ExposureTime ++ "\n"
                else "") ++
              (if x.Aperture ≠ "" then "- Aperture: " ++ x.Aperture ++ "\n" else "") ++
              (if x.FocalLength ≠ "" then "- Focal Length: " ++ x.FocalLength ++ "\n"
                else "") ++
              (if x.ISO > 0 then "- ISO: " ++ toString x.ISO ++ "\n" else "")) ∧
      cameraInfoSection (some ⟨"", "", "", "", "", 0⟩) = "" ∧
      cameraInfoSection (some ⟨"", "", "", "", "", 400⟩) = "\nCamera Info:\n- ISO: 400\n" := by
  refine ⟨detailsHead photo ++ photographerSection photo.User ++
      locationSection photo.Location, detailsTail photo, ?_, ?_, ?_, ?_, ?_⟩
  · intro exif
    rw [formatPhotoDetails_sections]
    rfl
  · intro exif
    cases exif with
    | none => simp [cameraInfoSection]
    | some x =>
      by_cases hx : hasCameraInfo x
      · have hne : cameraInfoSection (some x) ≠ "" := by
          simp only [cameraInfoSection, hx, if_true, String.append_assoc]
          exact append_ne_empty _ _ (by decide)
        simp only [hne, ne_eq, not_false_eq_true, true_iff]
        exact ⟨x, rfl, hx⟩
      · have he : cameraInfoSection (some x) = "" := by
          simp only [cameraInfoSection, hx, if_false]
        simp only [he, ne_eq, not_true_eq_false, false_iff]
        rintro ⟨y, hy, hcond⟩
        cases hy
        exact hx hcond
  · intro x hx
    have hx' : hasCameraInfo x := hx
    simp only [cameraInfoSection, hx', if_true, optionalLine, isoLine]
  · decide
  · decide

/-- Witness of `details_camera_info_section`: a photo whose EXIF data holds only ISO 400
gets the header and the ISO line. -/
theorem details_camera_info_section_witness :
    formatPhotoDetails { emptyPhoto with Exif := some ⟨"", "", "", "", "", 400⟩ } =
      "Photo Details:\n\n- ID: \n- Size: 0x0\n- Likes: 0\n" ++ "\nCamera Info:\n- ISO: 400\n" ++
        "\nURLs:\n" ∧
    ∃ pre post : String,
      formatPhotoDetails { emptyPhoto with Exif := some ⟨"", "", "", "", "", 400⟩ } =
        pre ++ "\nCamera Info:\n- ISO: 400\n" ++ post ∧
      formatPhotoDetails { emptyPhoto with Exif := some ⟨"", "", "", "", "", 0⟩ } =
        pre ++ "" ++ post := by
  refine ⟨by decide, ?_⟩
  obtain ⟨pre, post, h, -, -, h0, h400⟩ := details_camera_info_section emptyPhoto
  refine ⟨pre, post, ?_, ?_⟩
  · rw [← h400]; exact h _
  · rw [← h0]; exact h _

/-- C11. For every photo, around a fixed text that does not depend on `Location`,
`formatPhotoDetails` writes the Location section: nothing when `Location` is absent or when
name, city and country are all empty; otherwise the header followed by one line for each
non-empty field, in the order name, city, country, and no line for an empty field. -/
theorem details_location_section (photo : UnsplashPhoto) :
    ∃ pre post : String,
      (∀ loc : Option Location,
        formatPhotoDetails { photo with Location := loc } =
          pre ++ locationSection loc ++ post) ∧
      (∀ loc : Option Location,
        locationSection loc ≠ "" ↔
          ∃ x, loc = some x ∧ (x.Name ≠ "" ∨ x.City ≠ "" ∨ x.Country ≠ "")) ∧
      (∀ x : Location, x.Name ≠ "" ∨ x.City ≠ "" ∨ x.Country ≠ "" →
        locationSection (some x) =
          "\nLocation:\n" ++
            (if x.Name ≠ "" then "- Name: " ++ x.Name ++ "\n" else "") ++
            (if x.City ≠ "" then "- City: " ++ x.City ++ "\n" else "") ++
            (if x.Country ≠ "" then "- Country: " ++ x.Country ++ "\n" else "")) ∧
      locationSection (some ⟨"", "", ""⟩) = "" := by
  refine ⟨detailsHead photo ++ photographerSection photo.User,
    cameraInfoSection photo.Exif ++ detailsTail photo, ?_, ?_, ?_, ?_⟩
  · intro loc
    rw [formatPhotoDetails_sections]
    simp only [String.append_assoc]
    rfl
  · intro loc
    cases loc with
    | none => simp [locationSection]
    | some x =>
      by_cases hx : x.Name ≠ "" ∨ x.City ≠ "" ∨ x.Country ≠ ""
      · have hne : locationSection (some x) ≠ "" := by
          simp only [locationSection, hx, if_true, String.append_assoc]
          exact append_ne_empty _ _ (by decide)
        simp only [hne, ne_eq, not_false_eq_true, true_iff]
        exact ⟨x, rfl, hx⟩
      · have he : locationSection (some x) = "" := by
          simp only [locationSection, hx, if_false]
        simp only [he, ne_eq, not_true_eq_false, false_iff]
        rintro ⟨y, hy, hcond⟩
        cases hy
        exact hx hcond
  · intro x hx
    simp only [locationSection, hx, if_true, optionalLine]
  · decide

/-- Witness of `details_location_section`: a location with only the city set gets the header
and the City line; a location with every field empty gets nothing. -/
theorem details_location_section_witness :
    formatPhotoDetails { emptyPhoto with Location := some ⟨"", "Oslo", ""⟩ } =
      "Photo Details:\n\n- ID: \n- Size: 0x0\n- Likes: 0\n" ++ "\nLocation:\n- City: Oslo\n" ++
        "\nURLs:\n" ∧
    ∃ pre post : String,
      formatPhotoDetails { emptyPhoto with Location := some ⟨"", "", ""⟩ } =
        pre ++ "" ++ post := by
  refine ⟨by decide, ?_⟩
  obtain ⟨pre, post, h, -, -, h0⟩ := details_location_section emptyPhoto
  refine ⟨pre, post, ?_⟩
  rw [← h0]; exact h _

/-- C12. When `photoId` is absent, is not a string, or is the empty string, the `get_photo`
handler fails with the validation error "missing or empty required parameter: photoId",
whatever the client does: the client is not called. -/
theorem getPhoto_missing_or_empty_id (rt : Runtime) (client : UnsplashClient) (args : Args)
    (h : args.lookup "photoId" = none ∨
      (∃ v, args.lookup "photoId" = some v ∧ ∀ s, v ≠ Val.str s) ∨
      args.lookup "photoId" = some (Val.str "")) :
    createGetPhotoTool rt client args =
      .error "missing or empty required parameter: photoId" := by
  unfold createGetPhotoTool Args.asString
  rcases h with h | ⟨v, h, hv⟩ | h
  · rw [h]
  · rw [h]
    cases v with
    | str s => exact absurd rfl (hv s)
    | _ => rfl
  · rw [h]
    rfl

/-- Witness of `getPhoto_missing_or_empty_id`: an empty `photoId` fails also with a client
that would answer 200. -/
theorem getPhoto_missing_or_empty_id_witness :
    createGetPhotoTool sampleRuntime (constClient (.response 200 "\x7b\"id\":\"abc\"\x7d"))
        [("photoId", Val.str "")] =
      .error "missing or empty required parameter: photoId" :=
  getPhoto_missing_or_empty_id sampleRuntime _ [("photoId", Val.str "")] (Or.inr (Or.inr rfl))

/-- C13. For every argument mapping whose `query` is a string, the keys of the parameters of
`search_photos` are exactly query, page, per_page, order_by, then color when a non-empty
string `color` was supplied, then orientation when a non-empty string `orientation` was
supplied, each once and no other key; the values of color and orientation are the supplied
strings, and these parameters are the ones handed to the client. -/
theorem search_param_keys (rt : Runtime) (args : Args) (input : SearchPhotosInput)
    (params : Values) (h : searchPhotosRequest rt args = .ok (input, params)) :
    (∀ k, params.Has k = true ↔
      k ∈ ["query", "page", "per_page", "order_by"] ∨
      (k = "color" ∧ ∃ c, args.lookup "color" = some (Val.str c) ∧ c ≠ "") ∨
      (k = "orientation" ∧ ∃ o, args.lookup "orientation" = some (Val.str o) ∧ o ≠ "")) ∧
    (params.map Prod.fst).Nodup ∧
    (∀ c, args.lookup "color" = some (Val.str c) → c ≠ "" → params.Get "color" = some c) ∧
    (∀ o, args.lookup "orientation" = some (Val.str o) → o ≠ "" →
      params.Get "orientation" = some o) ∧
    (∀ client : UnsplashClient,
      createSearchPhotosTool rt client args =
        match (client.makeAPIRequest rt "GET" "/search/photos" (some params)).2 with
        | .error err => .error ("failed to search photos: " ++ err)
        | .ok body =>
          match rt.unmarshalSearch body with
          | .error err => .error ("failed to decode search response: " ++ err)
          | .ok searchResponse => .ok (searchPhotosReport input searchResponse)) := by
  have hsend : ∀ client : UnsplashClient,
      createSearchPhotosTool rt client args =
        match (client.makeAPIRequest rt "GET" "/search/photos" (some params)).2 with
        | .error err => .error ("failed to search photos: " ++ err)
        | .ok body =>
          match rt.unmarshalSearch body with
          | .error err => .error ("failed to decode search response: " ++ err)
          | .ok searchResponse => .ok (searchPhotosReport input searchResponse) := by
    intro client
    unfold createSearchPhotosTool
    rw [h]
  rw [searchPhotosRequest_eq] at h
  cases hq : args.asString "query" with
  | none => simp [hq] at h
  | some q =>
    simp only [hq, Except.ok.injEq, Prod.mk.injEq] at h
    obtain ⟨-, hp⟩ := h
    subst hp
    have hkeys : (searchParams rt args q).map Prod.fst =
        ["query", "page", "per_page", "order_by"] ++
          (if optionalValue args "color" ≠ "" then ["color"] else []) ++
          (if optionalValue args "orientation" ≠ "" then ["orientation"] else []) := by
      unfold searchParams optionalParam
      by_cases hc : optionalValue args "color" = "" <;>
        by_cases ho : optionalValue args "orientation" = "" <;> simp [hc, ho]
    refine ⟨?_, ?_, ?_, ?_, hsend⟩
    · intro k
      unfold Values.Has
      rw [lookup_isSome_iff, hkeys, ← optionalValue_ne_empty_iff,
        ← optionalValue_ne_empty_iff]
      by_cases hc : optionalValue args "color" = "" <;>
        by_cases ho : optionalValue args "orientation" = "" <;> simp [hc, ho, or_assoc]
    · rw [hkeys]
      by_cases hc : optionalValue args "color" = "" <;>
        by_cases ho : optionalValue args "orientation" = "" <;> simp [hc, ho]
    · intro c hc hne
      have hv : optionalValue args "color" = c := by simp [optionalValue, hc]
      unfold searchParams optionalParam Values.Get
      by_cases ho : optionalValue args "orientation" = "" <;>
        simp [hv, hne, ho, List.lookup]
    · intro o ho hne
      have hv : optionalValue args "orientation" = o := by simp [optionalValue, ho]
      unfold searchParams optionalParam Values.Get
      by_cases hc : optionalValue args "color" = "" <;>
        simp [hv, hne, hc, List.lookup]

/-- Witness of `search_param_keys`: with a color and an empty orientation the keys are query,
page, per_page, order_by and color. -/
theorem search_param_keys_witness :
    searchPhotosRequest sampleRuntime
        [("query", Val.str "cats"), ("color", Val.str "red"), ("orientation", Val.str "")] =
      .ok ({ Query := "cats", Page := 1, PerPage := 10, OrderBy := "relevant", Color := "red",
             Orientation := "" },
           [("query", "cats"), ("page", "1"), ("per_page", "10"), ("order_by", "relevant"),
            ("color", "red")]) ∧
    Values.Get
        [("query", "cats"), ("page", "1"), ("per_page", "10"), ("order_by", "relevant"),
          ("color", "red")] "color" = some "red" :=
  ⟨by decide,
    (search_param_keys sampleRuntime
      [("query", Val.str "cats"), ("color", Val.str "red"), ("orientation", Val.str "")]
      { Query := "cats", Page := 1, PerPage := 10, OrderBy := "relevant", Color := "red",
        Orientation := "" }
      [("query", "cats"), ("page", "1"), ("per_page", "10"), ("order_by", "relevant"),
        ("color", "red")]
      (by decide)).2.2.1 "red" (by decide) (by decide)⟩

/-- C14. For the argument mapping with only `query` = "cats", the parameters of
`search_photos` are exactly query=cats, page=1, per_page=10, order_by=relevant (requested as
`order_by=relevant&page=1&per_page=10&query=cats`); and when the client returns a body that
decodes to a response with `total_pages` 5 and the single result `p`, the text is the header
"Found 1 photos (Page 1/5):", a blank line, then the one block `formatPhotoSummary p`
followed by the newline that ends a block. -/
theorem search_cats_end_to_end (rt : Runtime) (client : UnsplashClient) (body : String)
    (p : UnsplashPhoto) (total : Int)
    (hbody : (client.makeAPIRequest rt "GET" "/search/photos"
      (some [("query", "cats"), ("page", "1"), ("per_page", "10"),
        ("order_by", "relevant")])).2 = .ok body)
    (hdecode : rt.unmarshalSearch body =
      .ok { Results := [p], Total := total, TotalPages := 5 }) :
    searchPhotosRequest rt [("query", Val.str "cats")] =
      .ok ({ Query := "cats", Page := 1, PerPage := 10, OrderBy := "relevant", Color := "",
             Orientation := "" },
           [("query", "cats"), ("page", "1"), ("per_page", "10"), ("order_by", "relevant")]) ∧
    requestURL "/search/photos"
        (some [("query", "cats"), ("page", "1"), ("per_page", "10"),
          ("order_by", "relevant")]) =
      "https://api.unsplash.com/search/photos?order_by=relevant&page=1&per_page=10&query=cats" ∧
    createSearchPhotosTool rt client [("query", Val.str "cats")] =
      .ok ("Found 1 photos (Page 1/5):\n\n" ++ formatPhotoSummary p ++ "\n") := by
  have hreq : searchPhotosRequest rt [("query", Val.str "cats")] =
      .ok ({ Query := "cats", Page := 1, PerPage := 10, OrderBy := "relevant", Color := "",
             Orientation := "" },
           [("query", "cats"), ("page", "1"), ("per_page", "10"), ("order_by", "relevant")]) :=
    rfl
  refine ⟨hreq, by decide, ?_⟩
  unfold createSearchPhotosTool
  rw [hreq]
  simp only [hbody, hdecode]
  rw [searchPhotosReport_eq]
  simp only [List.length_singleton, List.map_cons, List.map_nil, join_cons, String.join,
    List.foldl_nil, String.append_empty, String.append_assoc]
  rfl

/-- Witness of `search_cats_end_to_end`: the sample runtime and a client that answers 200
with the sample search body. -/
theorem search_cats_end_to_end_witness :
    createSearchPhotosTool sampleRuntime
        (constClient
          (.response 200
            "\x7b\"results\":[\x7b\"id\":\"abc\"\x7d],\"total\":1,\"total_pages\":5\x7d"))
        [("query", Val.str "cats")] =
      .ok ("Found 1 photos (Page 1/5):\n\n" ++ formatPhotoSummary samplePhoto ++ "\n") :=
  (search_cats_end_to_end sampleRuntime
    (constClient
      (.response 200
        "\x7b\"results\":[\x7b\"id\":\"abc\"\x7d],\"total\":1,\"total_pages\":5\x7d"))
    "\x7b\"results\":[\x7b\"id\":\"abc\"\x7d],\"total\":1,\"total_pages\":5\x7d"
    samplePhoto 1 (by decide) (by decide)).2.2

/-- C15. For every argument mapping whose `query` is a string, `search_photos` builds its
request without a local error, and the `order_by` parameter is the supplied string as it is
(whatever it is, also the empty string) when `order_by` is a string, and "relevant"
otherwise. The handler hands exactly these parameters to the client and returns what the
client and the decoder give: whatever `order_by` is, its result is the client's error, the
decoder's error or the report, never an error of its own. -/
theorem search_order_by_passthrough (rt : Runtime) (args : Args) (q : String)
    (hq : args.asString "query" = some q) :
    ∃ input params, searchPhotosRequest rt args = .ok (input, params) ∧
      (∀ ob, args.lookup "order_by" = some (Val.str ob) →
        input.OrderBy = ob ∧ params.Get "order_by" = some ob) ∧
      ((∀ ob, args.lookup "order_by" ≠ some (Val.str ob)) →
        input.OrderBy = "relevant" ∧ params.Get "order_by" = some "relevant") ∧
      (∀ client : UnsplashClient,
        createSearchPhotosTool rt client args =
          match (client.makeAPIRequest rt "GET" "/search/photos" (some params)).2 with
          | .error err => .error ("failed to search photos: " ++ err)
          | .ok body =>
            match rt.unmarshalSearch body with
            | .error err => .error ("failed to decode search response: " ++ err)
            | .ok searchResponse => .ok (searchPhotosReport input searchResponse)) := by
  have hreq := searchPhotosRequest_eq rt args
  rw [hq] at hreq
  simp only at hreq
  refine ⟨_, _, hreq, ?_, ?_, createSearchPhotosTool_of_request rt args _ _ hreq⟩
  · intro ob hob
    have hv : orderByValue args = ob := by simp [orderByValue, hob]
    refine ⟨hv, ?_⟩
    simp [searchParams, Values.Get, List.lookup, hv]
  · intro hno
    have hv : orderByValue args = "relevant" := by
      unfold orderByValue
      rcases h : args.lookup "order_by" with _ | v
      · rfl
      · cases v with
        | str s => exact absurd h (hno s)
        | _ => rfl
    refine ⟨hv, ?_⟩
    simp [searchParams, Values.Get, List.lookup, hv]

/-- Witness of `search_order_by_passthrough`: the value "bogus" and the empty string are
sent unchanged. -/
theorem search_order_by_passthrough_witness :
    searchPhotosRequest sampleRuntime [("query", Val.str "cats"), ("order_by", Val.str "bogus")] =
      .ok ({ Query := "cats", Page := 1, PerPage := 10, OrderBy := "bogus", Color := "",
             Orientation := "" },
           [("query", "cats"), ("page", "1"), ("per_page", "10"), ("order_by", "bogus")]) ∧
    searchPhotosRequest sampleRuntime [("query", Val.str "cats"), ("order_by", Val.str "")] =
      .ok ({ Query := "cats", Page := 1, PerPage := 10, OrderBy := "", Color := "",
             Orientation := "" },
           [("query", "cats"), ("page", "1"), ("per_page", "10"), ("order_by", "")]) ∧
    createSearchPhotosTool sampleRuntime
        (constClient
          (.response 200
            "\x7b\"results\":[\x7b\"id\":\"abc\"\x7d],\"total\":1,\"total_pages\":5\x7d"))
        [("query", Val.str "cats"), ("order_by", Val.str "bogus")] =
      .ok ("Found 1 photos (Page 1/5):\n\n" ++ formatPhotoSummary samplePhoto ++ "\n") ∧
    createSearchPhotosTool sampleRuntime
        (constClient (.response 400 "\x7b\"errors\":[\"order_by is invalid\"]\x7d"))
        [("query", Val.str "cats"), ("order_by", Val.str "bogus")] =
      .error "failed to search photos: unsplash API error: status code 400" ∧
    ∃ input params,
      searchPhotosRequest sampleRuntime
          [("query", Val.str "cats"), ("order_by", Val.str "bogus")] = .ok (input, params) ∧
        params.Get "order_by" = some "bogus" ∧
        createSearchPhotosTool sampleRuntime (constClient (.doErr "EOF"))
            [("query", Val.str "cats"), ("order_by", Val.str "bogus")] =
          match ((constClient (.doErr "EOF")).makeAPIRequest sampleRuntime "GET"
              "/search/photos" (some params)).2 with
          | .error err => .error ("failed to search photos: " ++ err)
          | .ok body =>
            match sampleRuntime.unmarshalSearch body with
            | .error err => .error ("failed to decode search response: " ++ err)
            | .ok searchResponse => .ok (searchPhotosReport input searchResponse) := by
  refine ⟨by decide, by decide, by decide, by decide, ?_⟩
  obtain ⟨input, params, h, hs, -, hsend⟩ :=
    search_order_by_passthrough sampleRuntime
      [("query", Val.str "cats"), ("order_by", Val.str "bogus")] "cats" (by decide)
  exact ⟨input, params, h, (hs "bogus" (by decide)).2, hsend _⟩

/-- C16. The report of `random_photo` for the photos `p_1..p_n` is the header
"Random Photos (n):", a blank line, and then for each photo in order the block "Photo i:"
(1-based), its summary and the newline that ends the block; there are as many blocks as the
header says. A successful handler returns this report of the decoded photos, and with the
effective count 1 the report is the header for 1 and the single block "Photo 1:". -/
theorem random_report_blocks (rt : Runtime) (client : UnsplashClient) (args : Args) :
    (∀ photos : List UnsplashPhoto,
      randomPhotoReport photos =
        "Random Photos (" ++ toString photos.length ++ "):\n\n" ++
          String.join
            (photos.enum.map
              (fun ip =>
                "Photo " ++ toString (ip.1 + 1) ++ ":\n" ++ formatPhotoSummary ip.2 ++ "\n")) ∧
      (photos.enum.map
        (fun ip =>
          "Photo " ++ toString (ip.1 + 1) ++ ":\n" ++ formatPhotoSummary ip.2 ++ "\n")).length =
        photos.length) ∧
    (∀ body photos,
      (client.makeAPIRequest rt "GET" "/photos/random"
        (some (randomPhotoRequest rt args).2)).2 = .ok body →
      1 < (randomPhotoRequest rt args).1 → rt.unmarshalPhotos body = .ok photos →
      createRandomPhotoTool rt client args = .ok (randomPhotoReport photos)) ∧
    (∀ body p,
      (client.makeAPIRequest rt "GET" "/photos/random"
        (some (randomPhotoRequest rt args).2)).2 = .ok body →
      (randomPhotoRequest rt args).1 = 1 → rt.unmarshalPhoto body = .ok p →
      createRandomPhotoTool rt client args =
        .ok ("Random Photos (1):\n\nPhoto 1:\n" ++ formatPhotoSummary p ++ "\n")) := by
  refine ⟨?_, ?_, ?_⟩
  · intro photos
    refine ⟨randomPhotoReport_eq photos, ?_⟩
    simp
  · intro body photos hbody hcount hdec
    have hne : ¬ (randomPhotoRequest rt args).1 = 1 := by omega
    rw [createRandomPhotoTool_eq]
    simp only [hbody, hne, if_false, hdec]
  · intro body p hbody hcount hdec
    rw [createRandomPhotoTool_eq]
    simp only [hbody, hcount, if_true, hdec]
    rw [randomPhotoReport_eq]
    simp only [List.length_singleton, List.enum_cons, List.enumFrom_nil, List.enum,
      List.enumFrom_cons, List.map_cons, List.map_nil, join_cons, String.join, List.foldl_nil,
      photoBlock, String.append_empty, String.append_assoc]
    rfl

/-- Witness of `random_report_blocks`: with `count` 2 and a body holding a sequence of one
photo, the report has the header for 1 and the block "Photo 1:". -/
theorem random_report_blocks_witness :
    createRandomPhotoTool sampleRuntime (constClient (.response 200 "[\x7b\"id\":\"abc\"\x7d]"))
        [("count", Val.num 2)] =
      .ok ("Random Photos (1):\n\nPhoto 1:\n" ++ formatPhotoSummary samplePhoto ++ "\n") :=
  ((random_report_blocks sampleRuntime (constClient (.response 200 "[\x7b\"id\":\"abc\"\x7d]"))
    [("count", Val.num 2)]).2.1 "[\x7b\"id\":\"abc\"\x7d]" [samplePhoto]
    (by decide) (by decide) (by decide)).trans (by decide)

/-- C17. For every non-empty `photoId` and every failure `err` of the client's request, the
`get_photo` handler returns no text but the error "failed to get photo <photoId>: <err>",
which names the operation and the photo ID and holds the client's error; for an upstream
status outside 200..299 that error holds the status code. -/
theorem getPhoto_client_failure (rt : Runtime) (client : UnsplashClient) (args : Args)
    (photoID err : String) (hid : args.asString "photoId" = some photoID)
    (hne : photoID ≠ "")
    (hfail : (client.makeAPIRequest rt "GET" ("/photos/" ++ photoID) none).2 = .error err) :
    createGetPhotoTool rt client args =
      .error ("failed to get photo " ++ photoID ++ ": " ++ err) ∧
    (∀ (s : Int) (b : String),
      rt.newRequestErr "GET" (requestURL ("/photos/" ++ photoID) none) = none →
      client.client (client.newRequest "GET" (requestURL ("/photos/" ++ photoID) none)) =
        .response s b →
      err = "unsplash API error: status code " ++ toString s ∧ (s < 200 ∨ s ≥ 300)) := by
  constructor
  · rw [createGetPhotoTool_eq rt client args photoID hid hne, hfail]
  · intro s b hreq hresp
    rw [makeAPIRequest_response_result rt client "GET" _ none s b hreq hresp] at hfail
    by_cases hs : s < 200 ∨ s ≥ 300
    · simp only [hs, if_true, Except.error.injEq] at hfail
      exact ⟨hfail.symm, hs⟩
    · simp [hs] at hfail

/-- Witness of `getPhoto_client_failure`: an upstream 404 for the photo "xyz". -/
theorem getPhoto_client_failure_witness :
    createGetPhotoTool sampleRuntime
        (constClient (.response 404 "\x7b\"errors\":[\"not found\"]\x7d"))
        [("photoId", Val.str "xyz")] =
      .error "failed to get photo xyz: unsplash API error: status code 404" :=
  (getPhoto_client_failure sampleRuntime
    (constClient (.response 404 "\x7b\"errors\":[\"not found\"]\x7d"))
    [("photoId", Val.str "xyz")] "xyz" "unsplash API error: status code 404"
    (by decide) (by decide) (by decide)).1.trans (by decide)

/-- C18 (counterexample). The string "9223372036854775808" holds the decimal integer 2^63,
which `strconv.Atoi` rejects on a 64-bit platform: the `page` parameter is 1, not 2^63. -/
theorem search_page_out_of_range_string :
    searchPhotosRequest sampleRuntime
        [("query", Val.str "cats"), ("page", Val.str "9223372036854775808")] =
      .ok ({ Query := "cats", Page := 1, PerPage := 10, OrderBy := "relevant", Color := "",
             Orientation := "" },
           [("query", "cats"), ("page", "1"), ("per_page", "10"), ("order_by", "relevant")]) ∧
    Itoa 9223372036854775808 = "9223372036854775808" := by
  decide

/-- C18 (amended). `search_photos` does not clamp or validate `page`: for every integer `k`
that fits `int`, given as its decimal text or as a number of that value (0 and negative
values too), the `page` parameter is the text of `k`; and the header of a successful result
shows the page of the request, "Page k/Y" with `Y` the `total_pages` of the response, never a
page taken from the response. A string that `strconv.Atoi` rejects, in particular the decimal
text of every integer that does not fit `int`, leaves the default page 1. The handler hands
exactly these parameters to the client. -/
theorem search_page_unclamped (rt : Runtime) (args : Args) (input : SearchPhotosInput)
    (params : Values) (h : searchPhotosRequest rt args = .ok (input, params)) :
    params.Get "page" = some (Itoa input.Page) ∧
    (∀ k : Int, fitsInt rt.intSize k →
      args.lookup "page" = some (Val.str (Itoa k)) ∨ args.lookup "page" = some (Val.num k) →
      input.Page = k ∧ params.Get "page" = some (Itoa k)) ∧
    (∀ (client : UnsplashClient) (body : String) (resp : SearchResponse),
      (client.makeAPIRequest rt "GET" "/search/photos" (some params)).2 = .ok body →
      rt.unmarshalSearch body = .ok resp →
      createSearchPhotosTool rt client args =
        .ok ("Found " ++ toString resp.Results.length ++ " photos (Page " ++
          toString input.Page ++ "/" ++ toString resp.TotalPages ++ "):\n\n" ++
          String.join (resp.Results.map (fun photo => formatPhotoSummary photo ++ "\n")))) ∧
    (∀ s e, args.lookup "page" = some (Val.str s) → Atoi rt.intSize s = .error e →
      input.Page = 1 ∧ params.Get "page" = some "1") ∧
    (∀ k : Int, ¬ fitsInt rt.intSize k → args.lookup "page" = some (Val.str (Itoa k)) →
      input.Page = 1 ∧ params.Get "page" = some "1") ∧
    (∀ client : UnsplashClient,
        createSearchPhotosTool rt client args =
          match (client.makeAPIRequest rt "GET" "/search/photos" (some params)).2 with
          | .error err => .error ("failed to search photos: " ++ err)
          | .ok body =>
            match rt.unmarshalSearch body with
            | .error err => .error ("failed to decode search response: " ++ err)
            | .ok searchResponse => .ok (searchPhotosReport input searchResponse)) := by
  have hcall := createSearchPhotosTool_of_request rt args input params h
  have hsend : ∀ (client : UnsplashClient) (body : String) (resp : SearchResponse),
      (client.makeAPIRequest rt "GET" "/search/photos" (some params)).2 = .ok body →
      rt.unmarshalSearch body = .ok resp →
      createSearchPhotosTool rt client args = .ok (searchPhotosReport input resp) := by
    intro client body resp hbody hdec
    unfold createSearchPhotosTool
    rw [h]
    simp only [hbody, hdec]
  rw [searchPhotosRequest_eq] at h
  cases hq : args.asString "query" with
  | none => simp [hq] at h
  | some q =>
    simp only [hq, Except.ok.injEq, Prod.mk.injEq] at h
    obtain ⟨hi, hp⟩ := h
    subst hi
    subst hp
    have hget : Values.Get (searchParams rt args q) "page" = some (Itoa (pageValue rt args)) := by
      simp [searchParams, Values.Get, List.lookup]
    have hrej : ∀ s e, args.lookup "page" = some (Val.str s) →
        Atoi rt.intSize s = .error e →
        pageValue rt args = 1 ∧
          Values.Get (searchParams rt args q) "page" = some "1" := by
      intro s e hlook herr
      have hv : pageValue rt args = 1 := by
        unfold pageValue
        simp only [hlook, herr]
      refine ⟨hv, ?_⟩
      rw [hget, hv]
      rfl
    refine ⟨hget, ?_, ?_, hrej, ?_, hcall⟩
    · intro k hk hlook
      have hv := pageValue_of_text rt args k hk hlook
      simp only at hget ⊢
      rw [hget, hv]
      exact ⟨rfl, rfl⟩
    · intro client body resp hbody hdec
      rw [hsend client body resp hbody hdec, searchPhotosReport_eq]
    · intro k hk hlook
      exact hrej (Itoa k) .errRange hlook (Atoi_Itoa_not_fits rt.intSize k hk)

/-- Witness of `search_page_unclamped`: the page "-3" is sent as -3 and shown in the header
of the result. -/
theorem search_page_unclamped_witness :
    searchPhotosRequest sampleRuntime [("query", Val.str "cats"), ("page", Val.str "-3")] =
      .ok ({ Query := "cats", Page := -3, PerPage := 10, OrderBy := "relevant", Color := "",
             Orientation := "" },
           [("query", "cats"), ("page", "-3"), ("per_page", "10"), ("order_by", "relevant")]) ∧
    Values.Get
        [("query", "cats"), ("page", "-3"), ("per_page", "10"), ("order_by", "relevant")]
        "page" = some (Itoa (-3)) ∧
    createSearchPhotosTool sampleRuntime
        (constClient
          (.response 200
            "\x7b\"results\":[\x7b\"id\":\"abc\"\x7d],\"total\":1,\"total_pages\":5\x7d"))
        [("query", Val.str "cats"), ("page", Val.str "-3")] =
      .ok ("Found 1 photos (Page -3/5):\n\n" ++ formatPhotoSummary samplePhoto ++ "\n") :=
  ⟨by decide,
    ((search_page_unclamped sampleRuntime
      [("query", Val.str "cats"), ("page", Val.str "-3")]
      { Query := "cats", Page := -3, PerPage := 10, OrderBy := "relevant", Color := "",
        Orientation := "" }
      [("query", "cats"), ("page", "-3"), ("per_page", "10"), ("order_by", "relevant")]
      (by decide)).2.1 (-3) (by decide) (Or.inl (by decide))).2,
    ((search_page_unclamped sampleRuntime
      [("query", Val.str "cats"), ("page", Val.str "-3")]
      { Query := "cats", Page := -3, PerPage := 10, OrderBy := "relevant", Color := "",
        Orientation := "" }
      [("query", "cats"), ("page", "-3"), ("per_page", "10"), ("order_by", "relevant")]
      (by decide)).2.2.1
      (constClient
        (.response 200
          "\x7b\"results\":[\x7b\"id\":\"abc\"\x7d],\"total\":1,\"total_pages\":5\x7d"))
      "\x7b\"results\":[\x7b\"id\":\"abc\"\x7d],\"total\":1,\"total_pages\":5\x7d"
      { Results := [samplePhoto], Total := 1, TotalPages := 5 }
      (by decide) (by decide)).trans (by decide)⟩

/-- C19. A numeric argument given as a string that `strconv.Atoi` rejects (every string that
is not a decimal integer) causes no error and leaves the default: `search_photos` builds its
request with page 1 (resp. per_page 10) and its handler hands these parameters to the client,
returning what the client and the decoder give, never an error of its own; `random_photo`
uses the effective count 1, sets no `count` parameter and decodes the body as a single
photo. -/
theorem unparseable_number_keeps_default (rt : Runtime) (args : Args) (s : String)
    (e : NumError) (hs : Atoi rt.intSize s = .error e) :
    (∀ q, args.asString "query" = some q → args.lookup "page" = some (Val.str s) →
      ∃ input params, searchPhotosRequest rt args = .ok (input, params) ∧
        input.Page = 1 ∧ params.Get "page" = some "1" ∧
        ∀ client : UnsplashClient,
          createSearchPhotosTool rt client args =
            match (client.makeAPIRequest rt "GET" "/search/photos" (some params)).2 with
            | .error err => .error ("failed to search photos: " ++ err)
            | .ok body =>
              match rt.unmarshalSearch body with
              | .error err => .error ("failed to decode search response: " ++ err)
              | .ok searchResponse => .ok (searchPhotosReport input searchResponse)) ∧
    (∀ q, args.asString "query" = some q → args.lookup "per_page" = some (Val.str s) →
      ∃ input params, searchPhotosRequest rt args = .ok (input, params) ∧
        input.PerPage = 10 ∧ params.Get "per_page" = some "10" ∧
        ∀ client : UnsplashClient,
          createSearchPhotosTool rt client args =
            match (client.makeAPIRequest rt "GET" "/search/photos" (some params)).2 with
            | .error err => .error ("failed to search photos: " ++ err)
            | .ok body =>
              match rt.unmarshalSearch body with
              | .error err => .error ("failed to decode search response: " ++ err)
              | .ok searchResponse => .ok (searchPhotosReport input searchResponse)) ∧
    (args.lookup "count" = some (Val.str s) →
      (randomPhotoRequest rt args).1 = 1 ∧
      (randomPhotoRequest rt args).2.Get "count" = none ∧
      ∀ client : UnsplashClient,
        createRandomPhotoTool rt client args =
          match (client.makeAPIRequest rt "GET" "/photos/random"
              (some (randomPhotoRequest rt args).2)).2 with
          | .error err => .error ("failed to get random photo(s): " ++ err)
          | .ok body =>
            match rt.unmarshalPhoto body with
            | .error err => .error ("failed to decode single random photo: " ++ err)
            | .ok singlePhoto => .ok (randomPhotoReport [singlePhoto])) := by
  refine ⟨?_, ?_, ?_⟩
  · intro q hq hpage
    have hv : pageValue rt args = 1 := by
      unfold pageValue
      simp only [hpage, hs]
    have hreq := searchPhotosRequest_eq rt args
    rw [hq] at hreq
    simp only at hreq
    refine ⟨_, _, hreq, hv, ?_, createSearchPhotosTool_of_request rt args _ _ hreq⟩
    simp only [searchParams, Values.Get, hv]
    rfl
  · intro q hq hpp
    have hv : perPageValue rt args = 10 := by
      unfold perPageValue
      simp only [hpp, hs]
    have hreq := searchPhotosRequest_eq rt args
    rw [hq] at hreq
    simp only at hreq
    refine ⟨_, _, hreq, hv, ?_, createSearchPhotosTool_of_request rt args _ _ hreq⟩
    simp only [searchParams, Values.Get, hv]
    rfl
  · intro hcount
    obtain ⟨h1, h2⟩ := randomPhotoRequest_get_count_none rt args s e hcount hs
    refine ⟨h1, h2, ?_⟩
    intro client
    rw [createRandomPhotoTool_eq]
    simp only [h1, if_true]

/-- Witness of `unparseable_number_keeps_default`: `page`, `per_page` and `count` given as
"abc". The search request is sent with page=1 and per_page=10 and its result is reported;
the random request has the count 1 and no `count` parameter. -/
theorem unparseable_number_keeps_default_witness :
    Atoi 64 "abc" = .error .errSyntax ∧
    searchPhotosRequest sampleRuntime
        [("query", Val.str "cats"), ("page", Val.str "abc"), ("per_page", Val.str "abc")] =
      .ok ({ Query := "cats", Page := 1, PerPage := 10, OrderBy := "relevant", Color := "",
             Orientation := "" },
           [("query", "cats"), ("page", "1"), ("per_page", "10"), ("order_by", "relevant")]) ∧
    createSearchPhotosTool sampleRuntime
        (constClient
          (.response 200
            "\x7b\"results\":[\x7b\"id\":\"abc\"\x7d],\"total\":1,\"total_pages\":5\x7d"))
        [("query", Val.str "cats"), ("page", Val.str "abc"), ("per_page", Val.str "abc")] =
      .ok ("Found 1 photos (Page 1/5):\n\n" ++ formatPhotoSummary samplePhoto ++ "\n") ∧
    (∃ input params,
      searchPhotosRequest sampleRuntime
          [("query", Val.str "cats"), ("page", Val.str "abc"), ("per_page", Val.str "abc")] =
        .ok (input, params) ∧
      input.Page = 1 ∧ params.Get "page" = some "1") ∧
    (∃ input params,
      searchPhotosRequest sampleRuntime
          [("query", Val.str "cats"), ("page", Val.str "abc"), ("per_page", Val.str "abc")] =
        .ok (input, params) ∧
      input.PerPage = 10 ∧ params.Get "per_page" = some "10") ∧
    randomPhotoRequest sampleRuntime [("count", Val.str "abc")] = (1, []) ∧
    (randomPhotoRequest sampleRuntime [("count", Val.str "abc")]).1 = 1 := by
  refine ⟨by decide, by decide, by decide, ?_, ?_, by decide, ?_⟩
  · obtain ⟨input, params, h, hp, hg, -⟩ :=
      (unparseable_number_keeps_default sampleRuntime
        [("query", Val.str "cats"), ("page", Val.str "abc"), ("per_page", Val.str "abc")]
        "abc" .errSyntax (by decide)).1 "cats" (by decide) (by decide)
    exact ⟨input, params, h, hp, hg⟩
  · obtain ⟨input, params, h, hp, hg, -⟩ :=
      (unparseable_number_keeps_default sampleRuntime
        [("query", Val.str "cats"), ("page", Val.str "abc"), ("per_page", Val.str "abc")]
        "abc" .errSyntax (by decide)).2.1 "cats" (by decide) (by decide)
    exact ⟨input, params, h, hp, hg⟩
  · exact ((unparseable_number_keeps_default sampleRuntime [("count", Val.str "abc")] "abc"
      .errSyntax (by decide)).2.2 (by decide)).1

/-- C20. For every non-empty `photoId`, the URL that `get_photo` requests is the base URL
followed by `/photos/` and the `photoId` as it is, with no query string added; the handler
hands exactly this URL to the HTTP layer, without a test of its own. So a `photoId` with a
slash or a question mark, or the `photoId` "random", changes the endpoint or query that is
requested. -/
theorem getPhoto_url_verbatim (rt : Runtime) (client : UnsplashClient) (args : Args)
    (photoID : String) (hid : args.asString "photoId" = some photoID)
    (hne : photoID ≠ "") :
    requestURL ("/photos/" ++ photoID) none = "https://api.unsplash.com/photos/" ++ photoID ∧
    createGetPhotoTool rt client args =
      (match rt.newRequestErr "GET" ("https://api.unsplash.com/photos/" ++ photoID) with
      | some err =>
        .error ("failed to get photo " ++ photoID ++ ": " ++
          ("failed to create request: " ++ err))
      | none =>
        match client.client
            { method := "GET", url := "https://api.unsplash.com/photos/" ++ photoID,
              header := [("Accept-Version", "v1"),
                         ("Authorization", "Client-ID " ++ client.accessKey),
                         ("User-Agent", "unsplash-mcp-server/0.2.0")] } with
        | .doErr err =>
          .error ("failed to get photo " ++ photoID ++ ": " ++
            ("failed to perform request: " ++ err))
        | .readErr _ err =>
          .error ("failed to get photo " ++ photoID ++ ": " ++
            ("failed to read response body: " ++ err))
        | .response statusCode body =>
          if statusCode < 200 ∨ statusCode ≥ 300 then
            .error ("failed to get photo " ++ photoID ++ ": " ++
              ("unsplash API error: status code " ++ toString statusCode))
          else
            match rt.unmarshalPhoto body with
            | .error err => .error ("failed to decode photo details: " ++ err)
            | .ok photo => .ok (formatPhotoDetails photo)) ∧
    requestURL ("/photos/" ++ "random") none =
      requestURL "/photos/random" (none : Option Values) ∧
    requestURL ("/photos/" ++ "abc/download") none =
      "https://api.unsplash.com/photos/abc/download" ∧
    requestURL ("/photos/" ++ "abc?w=1") none = "https://api.unsplash.com/photos/abc?w=1" := by
  have hurl : requestURL ("/photos/" ++ photoID) none =
      "https://api.unsplash.com/photos/" ++ photoID := by
    unfold requestURL unsplashAPIBaseURL
    simp only [← String.append_assoc]
    rfl
  have hreq : client.newRequest "GET" ("https://api.unsplash.com/photos/" ++ photoID) =
      { method := "GET", url := "https://api.unsplash.com/photos/" ++ photoID,
        header := [("Accept-Version", "v1"),
                   ("Authorization", "Client-ID " ++ client.accessKey),
                   ("User-Agent", "unsplash-mcp-server/0.2.0")] } := rfl
  refine ⟨hurl, ?_, by decide, by decide, by decide⟩
  rw [createGetPhotoTool_eq rt client args photoID hid hne]
  unfold UnsplashClient.makeAPIRequest
  simp only [hurl, hreq]
  rcases hnew : rt.newRequestErr "GET" ("https://api.unsplash.com/photos/" ++ photoID) with
    _ | err
  · simp only
    rcases hout : client.client
        { method := "GET", url := "https://api.unsplash.com/photos/" ++ photoID,
          header := [("Accept-Version", "v1"),
                     ("Authorization", "Client-ID " ++ client.accessKey),
                     ("User-Agent", "unsplash-mcp-server/0.2.0")] } with
      err | ⟨s, err⟩ | ⟨s, body⟩
    · rfl
    · rfl
    · simp only
      split_ifs <;> rfl
  · rfl

/-- Witness of `getPhoto_url_verbatim`: with a client that answers 200 only for
`/photos/random`, the `photoId` "random" gets the details of the sample photo, and the
`photoId` "abc" an upstream 404. -/
theorem getPhoto_url_verbatim_witness :
    createGetPhotoTool sampleRuntime randomOnlyClient [("photoId", Val.str "random")] =
      .ok (formatPhotoDetails samplePhoto) ∧
    createGetPhotoTool sampleRuntime randomOnlyClient [("photoId", Val.str "abc")] =
      .error "failed to get photo abc: unsplash API error: status code 404" :=
  ⟨((getPhoto_url_verbatim sampleRuntime randomOnlyClient [("photoId", Val.str "random")]
      "random" (by decide) (by decide)).2.1).trans (by decide),
    by decide⟩

end Unsplash
